import Mathlib

/-!
# HID++ report framing (`src/logid/backend/hidpp/Report.cpp`)

A shallow embedding of `Report.cpp`: the descriptor matcher
`hidpp::getSupportedReports` and the `Report` class (its two constructors,
`setType`, `setParams`, `isError10` and `isError20`).

Conventions of the embedding.

* A `uint8_t` is a `Nat`; a `std::vector<uint8_t>` is a `List Nat`.
* A constructor returns `Except Fault Report`: a C++ exception, a failed
  `assert` and an out-of-range `operator[]` are the three ways it can end
  without an object. The `assert`s are taken as compiled in (no `NDEBUG`).
* A mutating member function returns a `Mutation`: how the call ended and the
  state of the object at that point, so that the state left behind by a throwing
  call can be talked about.
* `std::size_t` is 64 bits wide.
* `Report.h` and the headers it includes are not among the sources under study;
  the constants they declare are modelled from the specification and marked as
  such.
-/

namespace hidpp

/-! ## Constants declared in `Report.h` -/

/-- Modelled from the spec: `Report::Type::Short` of `Report.h`, "byte 0 = report
type code (0x10 = Short, 0x11 = Long)". -/
def ReportType.Short : Nat := 0x10

/-- Modelled from the spec: `Report::Type::Long` of `Report.h`, "byte 0 = report
type code (0x10 = Short, 0x11 = Long)". -/
def ReportType.Long : Nat := 0x11

/-- Modelled from the spec: `Report::HeaderLength` of `Report.h`, "header(4)". -/
def HeaderLength : Nat := 4

/-- Modelled from the spec: `ShortParamLength` of the missing headers, "Short total
length = header(4) + 6 parameter bytes". -/
def ShortParamLength : Nat := 6

/-- Modelled from the spec: `LongParamLength` of the missing headers, "Long total
length = header(4) + 19 parameter bytes". -/
def LongParamLength : Nat := 19

/-- Modelled from the spec: `Report::functionMask` of `Report.h`, "function <= 0xF". -/
def functionMask : Nat := 0x0f

/-- Modelled from the spec: `Report::swIdMask` of `Report.h`, "software_id <= 0xF". -/
def swIdMask : Nat := 0x0f

/-- Modelled from the spec: `Offset::Type` of `Report.h`, "report type (offset 0)". -/
def Offset.ReportType : Nat := 0

/-- Modelled from the spec: `Offset::DeviceIndex` of `Report.h`, "device index
(offset 1)". -/
def Offset.DeviceIndex : Nat := 1

/-- Modelled from the spec: `Offset::SubID` of `Report.h`, "feature-index-or-sub-id
(offset 2)". -/
def Offset.SubID : Nat := 2

/-- Modelled from the spec: `Offset::Feature` of `Report.h`, "feature-index-or-sub-id
(offset 2)". -/
def Offset.Feature : Nat := 2

/-- Modelled from the spec: `Offset::Function` of `Report.h`, "function/software-id
byte (offset 3)". -/
def Offset.Function : Nat := 3

/-- Modelled from the spec: `Offset::Parameters` of `Report.h`, "parameters (offset 4
onward)". -/
def Offset.Parameters : Nat := 4

/-- Modelled from the spec: `HIDPP_REPORT_SHORT_SUPPORTED` of `Report.h`, one of the
"two independent bits" of the capability bitmask (the low one here). -/
def HIDPP_REPORT_SHORT_SUPPORTED : Nat := 1

/-- Modelled from the spec: `HIDPP_REPORT_LONG_SUPPORTED` of `Report.h`, the other of
the "two independent bits" of the capability bitmask. -/
def HIDPP_REPORT_LONG_SUPPORTED : Nat := 2

/-- Width of `std::size_t`, for the one unsigned subtraction of `setParams`. -/
def sizeBits : Nat := 64

/-! ## Report descriptors (lines 12-67) -/

/-- The array `ShortReportDesc`, lines 12-24. -/
def ShortReportDesc : List Nat :=
  [0xA1, 0x01, 0x85, 0x10, 0x75, 0x08, 0x95, 0x06, 0x15, 0x00, 0x26, 0xFF, 0x00,
   0x09, 0x01, 0x81, 0x00, 0x09, 0x01, 0x91, 0x00, 0xC0]

/-- The array `LongReportDesc`, lines 26-38. -/
def LongReportDesc : List Nat :=
  [0xA1, 0x01, 0x85, 0x11, 0x75, 0x08, 0x95, 0x13, 0x15, 0x00, 0x26, 0xFF, 0x00,
   0x09, 0x02, 0x81, 0x00, 0x09, 0x02, 0x91, 0x00, 0xC0]

/-- The array `ShortReportDesc2` (G602 variant), lines 41-53. -/
def ShortReportDesc2 : List Nat :=
  [0xA1, 0x01, 0x85, 0x10, 0x95, 0x06, 0x75, 0x08, 0x15, 0x00, 0x26, 0xFF, 0x00,
   0x09, 0x01, 0x81, 0x00, 0x09, 0x01, 0x91, 0x00, 0xC0]

/-- The array `LongReportDesc2` (G602 variant), lines 55-67. -/
def LongReportDesc2 : List Nat :=
  [0xA1, 0x01, 0x85, 0x11, 0x95, 0x13, 0x75, 0x08, 0x15, 0x00, 0x26, 0xFF, 0x00,
   0x09, 0x02, 0x81, 0x00, 0x09, 0x02, 0x91, 0x00, 0xC0]

/-! ## `std::search` and `getSupportedReports` (lines 69-86) -/

/-- How the inner loop of `std::search` ends for one start position. -/
inductive Scan
  | found
  | hayEnd
  | mismatch
  deriving DecidableEq, Repr

/-- Inner loop of `std::search`: walk the text (from the start position to its end)
and the pattern in step. Reaching the end of the pattern first is a match at the
start position; reaching the end of the text first ends the whole search; a
differing byte moves the start position on. -/
def searchScan : List Nat → List Nat → Scan
  | _, [] => Scan.found
  | [], _ :: _ => Scan.hayEnd
  | h :: hs, n :: ns => if h = n then searchScan hs ns else Scan.mismatch

/-- Outer loop of `std::search` over the text from position `first` on (`hay` is what
is left of the text there). The iterator returned is given as its distance from
`begin()`; `end()` is `first + hay.length`. -/
def searchFrom (needle : List Nat) : List Nat → Nat → Nat
  | [], first => first
  | h :: t, first =>
    match searchScan (h :: t) needle with
    | Scan.found => first
    | Scan.hayEnd => first + (h :: t).length
    | Scan.mismatch => searchFrom needle t (first + 1)

/-- The call `std::search(hay.begin(), hay.end(), needle.begin(), needle.end())`, as
the returned iterator's distance from `hay.begin()` (`hay.length` is `hay.end()`). -/
def search (hay needle : List Nat) : Nat :=
  searchFrom needle hay 0

/-- The function `hidpp::getSupportedReports`, lines 69-86.

The first long search (line 79) is given the pattern range
`[LongReportDesc.begin(), LongReportDesc2.end())`, whose two ends lie in different
arrays. What bytes that range holds is a matter of how the linker lays the arrays
out, so it is the parameter `longRange`; every other search uses the array named in
the source. -/
def getSupportedReports (longRange : List Nat) (rdesc : List Nat) : Nat :=
  let ret := 0
  let it := search rdesc ShortReportDesc
  let it := if it = rdesc.length then search rdesc ShortReportDesc2 else it
  let ret := if it ≠ rdesc.length then (ret ||| HIDPP_REPORT_SHORT_SUPPORTED) % 256 else ret
  let it := search rdesc longRange
  let it := if it = rdesc.length then search rdesc LongReportDesc2 else it
  let ret := if it ≠ rdesc.length then (ret ||| HIDPP_REPORT_LONG_SUPPORTED) % 256 else ret
  ret

/-- The pattern range of line 79 when the four arrays are laid out back to back in
declaration order: from the start of `LongReportDesc` to the end of
`LongReportDesc2`, with `ShortReportDesc2` in between. -/
def longRangeInOrder : List Nat :=
  LongReportDesc ++ ShortReportDesc2 ++ LongReportDesc2

/-- The short-supported bit of a capability bitmask. -/
def shortSupported (flags : Nat) : Bool :=
  flags &&& HIDPP_REPORT_SHORT_SUPPORTED != 0

/-- The long-supported bit of a capability bitmask. -/
def longSupported (flags : Nat) : Bool :=
  flags &&& HIDPP_REPORT_LONG_SUPPORTED != 0

/-! ## The class `Report` (lines 88-162) -/

/-- The ways a call can end other than by returning: the two exception classes of
`Report` (lines 88-96), a failed `assert`, and an `operator[]` outside the vector. -/
inductive Fault
  | InvalidReportID
  | InvalidReportLength
  | AssertionFailed
  | OutOfBounds
  deriving DecidableEq, Repr

/-- The class `Report`: its one data member, the vector `_data`. -/
structure Report where
  _data : List Nat
  deriving DecidableEq, Repr

/-- How a mutating member function ended (`none`: it returned) and the object's state
at that point. -/
structure Mutation where
  fault : Option Fault
  report : Report
  deriving DecidableEq, Repr

/-- The call `std::vector<uint8_t>::resize(n)`: keep the first `n` elements, append
zero bytes up to length `n`. -/
def resize (v : List Nat) (n : Nat) : List Nat :=
  v.take n ++ List.replicate (n - v.length) 0

/-- The read `v[i]`, checked. -/
def readAt (v : List Nat) (i : Nat) : Except Fault Nat :=
  match v[i]? with
  | some b => Except.ok b
  | none => Except.error Fault.OutOfBounds

/-- The write `v[i] = b`, checked. -/
def writeAt (v : List Nat) (i : Nat) (b : Nat) : Except Fault (List Nat) :=
  if i < v.length then Except.ok (v.set i b) else Except.error Fault.OutOfBounds

/-- The constructor `Report::Report(Type, DeviceIndex, uint8_t, uint8_t, uint8_t)`,
lines 98-120. `_data` starts as the empty vector. -/
def Report.construct (type device_index feature_index function sw_id : Nat) :
    Except Fault Report :=
  if ¬ function ≤ functionMask then Except.error Fault.AssertionFailed
  else if ¬ sw_id ≤ swIdMask then Except.error Fault.AssertionFailed
  else
    let sized : Option (List Nat) :=
      if type = ReportType.Short then some (resize [] (HeaderLength + ShortParamLength))
      else if type = ReportType.Long then some (resize [] (HeaderLength + LongParamLength))
      else none
    match sized with
    | none => Except.error Fault.InvalidReportID
    | some d0 => do
      let d1 ← writeAt d0 Offset.ReportType type
      let d2 ← writeAt d1 Offset.DeviceIndex device_index
      let d3 ← writeAt d2 Offset.Feature feature_index
      let d4 ← writeAt d3 Offset.Function
        ((((function &&& functionMask) <<< 4) ||| (sw_id &&& swIdMask)) % 256)
      pure ⟨d4⟩

/-- The constructor `Report::Report(const std::vector<uint8_t>&)`, lines 122-137. -/
def Report.constructRaw (data : List Nat) : Except Fault Report := do
  let d := data
  let t ← readAt d Offset.ReportType
  if t = ReportType.Short then pure ⟨resize d (HeaderLength + ShortParamLength)⟩
  else if t = ReportType.Long then pure ⟨resize d (HeaderLength + LongParamLength)⟩
  else Except.error Fault.InvalidReportID

/-- The member function `Report::setType`, lines 139-154. -/
def Report.setType (self : Report) (type : Nat) : Mutation :=
  let sized : Option (List Nat) :=
    if type = ReportType.Short then some (resize self._data (HeaderLength + ShortParamLength))
    else if type = ReportType.Long then some (resize self._data (HeaderLength + LongParamLength))
    else none
  match sized with
  | none => ⟨some Fault.InvalidReportID, self⟩
  | some d =>
    match writeAt d Offset.ReportType type with
    | Except.ok d1 => ⟨none, ⟨d1⟩⟩
    | Except.error e => ⟨some e, ⟨d⟩⟩

/-- The loop of `Report::setParams`, lines 160-161, from index `i` on: the first
argument is what is left of `_params` from index `i`, so its head is `_params[i]`. -/
def setParamsLoop : List Nat → Nat → List Nat → Mutation
  | [], _, d => ⟨none, ⟨d⟩⟩
  | p :: ps, i, d =>
    match writeAt d (Offset.Parameters + i) p with
    | Except.ok d1 => setParamsLoop ps (i + 1) d1
    | Except.error e => ⟨some e, ⟨d⟩⟩

/-- The member function `Report::setParams`, lines 156-162. The bound of the `assert`
is the `std::size_t` difference `_data.size() - HeaderLength`, which wraps. -/
def Report.setParams (self : Report) (_params : List Nat) : Mutation :=
  if ¬ _params.length ≤ (self._data.length + 2 ^ sizeBits - HeaderLength) % 2 ^ sizeBits then
    ⟨some Fault.AssertionFailed, self⟩
  else
    setParamsLoop _params 0 self._data

/-! ## Error classification (lines 164-191) -/

/-- Modelled from the spec: the struct `Report::hidpp10_error` of `Report.h`,
"{sub_id, address, error_code} for sub-version 1". -/
structure hidpp10_error where
  sub_id : Nat
  address : Nat
  error_code : Nat
  deriving DecidableEq, Repr

/-- Modelled from the spec: the struct `Report::hidpp20_error` of `Report.h`,
"{feature_index, function, software_id, error_code} for sub-version 2". -/
structure hidpp20_error where
  feature_index : Nat
  function : Nat
  software_id : Nat
  error_code : Nat
  deriving DecidableEq, Repr

/-- The member function `Report::isError10`, lines 164-177. The result is the value
returned together with the output struct as the call leaves it.

The output pointer is modelled by the struct it points to, so `assert(error !=
nullptr)` holds by construction. `hidpp10::ErrorID` is declared in `hidpp10/Error.h`,
which is not among the sources, and the specification only says that one value is
reserved: it is the parameter `ErrorID`. The second operand of `||` is read only when
the first is false. -/
def Report.isError10 (ErrorID : Nat) (self : Report) (error : hidpp10_error) :
    Except Fault (Bool × hidpp10_error) := do
  let type ← readAt self._data Offset.ReportType
  if type ≠ ReportType.Short then
    pure (false, error)
  else
    let sub ← readAt self._data Offset.SubID
    if sub ≠ ErrorID then
      pure (false, error)
    else
      let b3 ← readAt self._data 3
      let error := { error with sub_id := b3 }
      let b4 ← readAt self._data 4
      let error := { error with address := b4 }
      let b5 ← readAt self._data 5
      let error := { error with error_code := b5 }
      pure (true, error)

/-- The member function `Report::isError20`, lines 179-191. The result is the value
returned together with the output struct as the call leaves it.

The output pointer is modelled by the struct it points to. `hidpp20::ErrorID` is
declared in `hidpp20/Error.h`, which is not among the sources, and the specification
only says that one value is reserved: it is the parameter `ErrorID`. -/
def Report.isError20 (ErrorID : Nat) (self : Report) (error : hidpp20_error) :
    Except Fault (Bool × hidpp20_error) := do
  let type ← readAt self._data Offset.ReportType
  if type ≠ ReportType.Long then
    pure (false, error)
  else
    let feature ← readAt self._data Offset.Feature
    if feature ≠ ErrorID then
      pure (false, error)
    else
      let b3 ← readAt self._data 3
      let error := { error with feature_index := b3 }
      let b4 ← readAt self._data 4
      let error := { error with function := (b4 >>> 4) &&& 0x0f }
      let b4 ← readAt self._data 4
      let error := { error with software_id := b4 &&& 0x0f }
      let b5 ← readAt self._data 5
      let error := { error with error_code := b5 }
      pure (true, error)

/-! ## Sequences of calls, validity -/

/-- One mutating call on a `Report`. -/
inductive Op
  | setType (type : Nat)
  | setParams (params : List Nat)
  deriving DecidableEq, Repr

/-- Make one call. -/
def Op.apply : Op → Report → Mutation
  | Op.setType t, r => r.setType t
  | Op.setParams ps, r => r.setParams ps

/-- Make the calls in order; the result is the final state when every call returned,
and `none` as soon as one did not. -/
def runOps : List Op → Report → Option Report
  | [], r => some r
  | op :: ops, r =>
    match (op.apply r).fault with
    | none => runOps ops (op.apply r).report
    | some _ => none

/-- Parameter-region length of a report type code: `ShortParamLength` for the Short
code, `LongParamLength` otherwise (it is only ever asked about the two valid codes). -/
def paramLength (type : Nat) : Nat :=
  if type = ReportType.Short then ShortParamLength else LongParamLength

/-- Validity of a `Report`: byte 0 is the Short or the Long code and the buffer is as
long as that type requires. -/
def Report.Valid (r : Report) : Prop :=
  (r._data[0]? = some ReportType.Short ∨ r._data[0]? = some ReportType.Long) ∧
    r._data.length = HeaderLength + paramLength (r._data[0]?.getD 0)

instance (r : Report) : Decidable r.Valid := by
  unfold Report.Valid
  infer_instance

/-! ## Vectors and bytes -/

theorem resize_length (v : List Nat) (n : Nat) : (resize v n).length = n := by
  simp only [resize, List.length_append, List.length_take, List.length_replicate]
  omega

theorem resize_getElem? (v : List Nat) (n i : Nat) (h : i < n) :
    (resize v n)[i]? = some (v[i]?.getD 0) := by
  unfold resize
  by_cases hi : i < v.length
  · rw [List.getElem?_append_left (by simp; omega)]
    rw [List.getElem?_take_of_lt h]
    simp [List.getElem?_eq_getElem hi]
  · rw [List.getElem?_append_right (by simp; omega)]
    have hv : v[i]? = none := List.getElem?_eq_none (by omega)
    rw [List.getElem?_replicate]
    simp only [hv, Option.getD_none, List.length_take]
    rw [if_pos (by omega)]

theorem resize_of_length (v : List Nat) : resize v v.length = v := by
  simp [resize]

theorem pack_eq (fn sw : Nat) (hfn : fn ≤ 15) (hsw : sw ≤ 15) :
    (((fn &&& functionMask) <<< 4) ||| (sw &&& swIdMask)) % 256 = (fn <<< 4) ||| sw := by
  unfold functionMask swIdMask
  interval_cases fn <;> interval_cases sw <;> rfl


/-! ## The constructors -/

theorem construct_short (d f fn sw : Nat) (hfn : fn ≤ 15) (hsw : sw ≤ 15) :
    Report.construct ReportType.Short d f fn sw =
      Except.ok ⟨[ReportType.Short, d, f, (fn <<< 4) ||| sw, 0, 0, 0, 0, 0, 0]⟩ := by
  have hp := pack_eq fn sw hfn hsw
  have h1 : fn ≤ functionMask := hfn
  have h2 : sw ≤ swIdMask := hsw
  simp [Report.construct, h1, h2, hp, resize, writeAt, HeaderLength, ShortParamLength,
    Offset.ReportType, Offset.DeviceIndex, Offset.Feature, Offset.Function, bind, Except.bind,
    pure, Except.pure, List.replicate]

theorem construct_long (d f fn sw : Nat) (hfn : fn ≤ 15) (hsw : sw ≤ 15) :
    Report.construct ReportType.Long d f fn sw =
      Except.ok ⟨[ReportType.Long, d, f, (fn <<< 4) ||| sw,
        0, 0, 0, 0, 0, 0, 0, 0, 0, 0, 0, 0, 0, 0, 0, 0, 0, 0, 0]⟩ := by
  have hp := pack_eq fn sw hfn hsw
  have h1 : fn ≤ functionMask := hfn
  have h2 : sw ≤ swIdMask := hsw
  have hne : ReportType.Long ≠ ReportType.Short := by decide
  simp [Report.construct, h1, h2, hp, hne, resize, writeAt, HeaderLength, LongParamLength,
    Offset.ReportType, Offset.DeviceIndex, Offset.Feature, Offset.Function, bind, Except.bind,
    pure, Except.pure, List.replicate]

theorem construct_invalid (type d f fn sw : Nat) (hfn : fn ≤ 15) (hsw : sw ≤ 15)
    (hs : type ≠ ReportType.Short) (hl : type ≠ ReportType.Long) :
    Report.construct type d f fn sw = Except.error Fault.InvalidReportID := by
  have h1 : fn ≤ functionMask := hfn
  have h2 : sw ≤ swIdMask := hsw
  simp [Report.construct, h1, h2, hs, hl]

theorem construct_assert (type d f fn sw : Nat) (h : 15 < fn ∨ 15 < sw) :
    Report.construct type d f fn sw = Except.error Fault.AssertionFailed := by
  unfold Report.construct functionMask swIdMask
  rcases h with h | h
  · rw [if_pos (by omega)]
  · split
    · rfl
    · rw [if_pos (by omega)]

theorem constructRaw_nil : Report.constructRaw [] = Except.error Fault.OutOfBounds := rfl

theorem constructRaw_cons (t : Nat) (rest : List Nat) :
    Report.constructRaw (t :: rest) =
      if t = ReportType.Short then
        Except.ok ⟨resize (t :: rest) (HeaderLength + ShortParamLength)⟩
      else if t = ReportType.Long then
        Except.ok ⟨resize (t :: rest) (HeaderLength + LongParamLength)⟩
      else Except.error Fault.InvalidReportID := by
  simp [Report.constructRaw, readAt, Offset.ReportType, bind, Except.bind, pure, Except.pure]

/-! ## `setType` and `setParams` -/

theorem setType_short (r : Report) :
    r.setType ReportType.Short =
      ⟨none, ⟨(resize r._data (HeaderLength + ShortParamLength)).set 0 ReportType.Short⟩⟩ := by
  have hl := resize_length r._data (HeaderLength + ShortParamLength)
  simp only [Report.setType, writeAt, Offset.ReportType, if_true]
  rw [if_pos (by rw [hl]; decide)]

theorem setType_long (r : Report) :
    r.setType ReportType.Long =
      ⟨none, ⟨(resize r._data (HeaderLength + LongParamLength)).set 0 ReportType.Long⟩⟩ := by
  have hl := resize_length r._data (HeaderLength + LongParamLength)
  have hne : ReportType.Long ≠ ReportType.Short := by decide
  simp only [Report.setType, writeAt, Offset.ReportType, if_neg hne, if_true]
  rw [if_pos (by rw [hl]; decide)]

theorem setType_invalid (r : Report) (type : Nat) (hs : type ≠ ReportType.Short)
    (hl : type ≠ ReportType.Long) :
    r.setType type = ⟨some Fault.InvalidReportID, r⟩ := by
  simp [Report.setType, hs, hl]

theorem set_split (a b : List Nat) (x p : Nat) (m : Nat) (ps : List Nat)
    (hm : m = ps.length) :
    List.take (a.length + 1) ((a ++ x :: b).set a.length p) ++ ps ++
        List.drop (a.length + 1 + m) ((a ++ x :: b).set a.length p) =
      a ++ p :: ps ++ List.drop (a.length + (m + 1)) (a ++ x :: b) := by
  subst hm
  have e1 : a.length + 1 + ps.length = a.length + (ps.length + 1) := by omega
  have e2 : (a ++ x :: b).set a.length p = a ++ p :: b := by simp
  rw [e1, e2, List.drop_append, List.drop_append, List.take_append]
  simp

theorem setParamsLoop_ok (ps : List Nat) :
    ∀ (i : Nat) (d : List Nat), Offset.Parameters + i + ps.length ≤ d.length →
      setParamsLoop ps i d =
        ⟨none, ⟨d.take (Offset.Parameters + i) ++ ps ++
          d.drop (Offset.Parameters + i + ps.length)⟩⟩ := by
  induction ps with
  | nil =>
    intro i d _
    simp [setParamsLoop]
  | cons p ps ih =>
    intro i d h
    simp only [List.length_cons] at h
    have hlt : Offset.Parameters + i < d.length := by omega
    have hset : (d.set (Offset.Parameters + i) p).length = d.length := List.length_set ..
    simp only [setParamsLoop, writeAt, if_pos hlt]
    rw [ih (i + 1) _ (by rw [hset]; omega)]
    congr 2
    have e1 : Offset.Parameters + (i + 1) = (Offset.Parameters + i) + 1 := by omega
    rw [e1]
    generalize Offset.Parameters + i = k at hlt h ⊢
    have hd : d = List.take k d ++ d[k] :: List.drop (k + 1) d := by
      rw [← List.drop_eq_getElem_cons hlt, List.take_append_drop]
    have ha : (List.take k d).length = k := by
      rw [List.length_take]; omega
    generalize List.take k d = a at hd ha
    generalize List.drop (k + 1) d = b at hd
    generalize d[k] = x at hd
    subst hd
    subst ha
    exact set_split a b x p ps.length ps rfl

theorem splice_length (d ps : List Nat) (k : Nat) (h : k + ps.length ≤ d.length) :
    (d.take k ++ ps ++ d.drop (k + ps.length)).length = d.length := by
  simp only [List.length_append, List.length_take, List.length_drop]
  omega

theorem splice_getElem?_lt (d ps : List Nat) (k j : Nat) (h : k + ps.length ≤ d.length)
    (hj : j < k) : (d.take k ++ ps ++ d.drop (k + ps.length))[j]? = d[j]? := by
  rw [List.append_assoc, List.getElem?_append_left (by rw [List.length_take]; omega)]
  exact List.getElem?_take_of_lt hj

theorem splice_getElem?_mid (d ps : List Nat) (k j : Nat) (h : k + ps.length ≤ d.length)
    (hj : j < ps.length) : (d.take k ++ ps ++ d.drop (k + ps.length))[k + j]? = ps[j]? := by
  have hk : (d.take k).length = k := by rw [List.length_take]; omega
  rw [List.append_assoc, List.getElem?_append_right (by omega), hk,
    List.getElem?_append_left (by omega)]
  congr 1
  omega

theorem splice_getElem?_ge (d ps : List Nat) (k j : Nat) (h : k + ps.length ≤ d.length)
    (hj : k + ps.length ≤ j) : (d.take k ++ ps ++ d.drop (k + ps.length))[j]? = d[j]? := by
  have hk : (d.take k ++ ps).length = k + ps.length := by
    rw [List.length_append, List.length_take]; omega
  rw [List.getElem?_append_right (by omega), hk, List.getElem?_drop]
  congr 1
  omega

theorem assert_bound (n : Nat) (h4 : HeaderLength ≤ n) (hn : n < 2 ^ sizeBits) :
    (n + 2 ^ sizeBits - HeaderLength) % 2 ^ sizeBits = n - HeaderLength := by
  unfold HeaderLength sizeBits at *
  omega

theorem setParams_ok (r : Report) (ps : List Nat) (h4 : HeaderLength ≤ r._data.length)
    (hn : r._data.length < 2 ^ sizeBits) (hp : ps.length ≤ r._data.length - HeaderLength) :
    r.setParams ps =
      ⟨none, ⟨r._data.take Offset.Parameters ++ ps ++
        r._data.drop (Offset.Parameters + ps.length)⟩⟩ := by
  unfold Report.setParams
  rw [assert_bound _ h4 hn, if_neg (by omega)]
  have h := setParamsLoop_ok ps 0 r._data (by unfold Offset.Parameters HeaderLength at *; omega)
  simpa using h

theorem setParams_assert (r : Report) (ps : List Nat) (h4 : HeaderLength ≤ r._data.length)
    (hn : r._data.length < 2 ^ sizeBits) (hp : r._data.length - HeaderLength < ps.length) :
    r.setParams ps = ⟨some Fault.AssertionFailed, r⟩ := by
  unfold Report.setParams
  rw [assert_bound _ h4 hn, if_pos (by omega)]

theorem valid_iff (r : Report) :
    r.Valid ↔
      (r._data[0]? = some ReportType.Short ∧ r._data.length = HeaderLength + ShortParamLength) ∨
      (r._data[0]? = some ReportType.Long ∧ r._data.length = HeaderLength + LongParamLength) := by
  unfold Report.Valid
  constructor
  · rintro ⟨h | h, hl⟩
    · left; refine ⟨h, ?_⟩; rw [hl, h]; rfl
    · right; refine ⟨h, ?_⟩; rw [hl, h]; rfl
  · rintro (⟨h, hl⟩ | ⟨h, hl⟩)
    · refine ⟨Or.inl h, ?_⟩; rw [hl, h]; rfl
    · refine ⟨Or.inr h, ?_⟩; rw [hl, h]; rfl

theorem valid_bounds (r : Report) (h : r.Valid) :
    HeaderLength ≤ r._data.length ∧ r._data.length < 2 ^ sizeBits := by
  rcases (valid_iff r).1 h with ⟨_, hl⟩ | ⟨_, hl⟩ <;> rw [hl] <;> decide

/-! ## Validity is preserved -/

theorem construct_valid (type d f fn sw : Nat) (r : Report)
    (h : Report.construct type d f fn sw = Except.ok r) : r.Valid := by
  by_cases hfn : fn ≤ 15
  · by_cases hsw : sw ≤ 15
    · by_cases hs : type = ReportType.Short
      · subst hs
        rw [construct_short d f fn sw hfn hsw] at h
        cases h
        exact (valid_iff _).2 (Or.inl ⟨rfl, rfl⟩)
      · by_cases hl : type = ReportType.Long
        · subst hl
          rw [construct_long d f fn sw hfn hsw] at h
          cases h
          exact (valid_iff _).2 (Or.inr ⟨rfl, rfl⟩)
        · rw [construct_invalid type d f fn sw hfn hsw hs hl] at h
          cases h
    · rw [construct_assert type d f fn sw (Or.inr (by omega))] at h
      cases h
  · rw [construct_assert type d f fn sw (Or.inl (by omega))] at h
    cases h

theorem resize_head (t : Nat) (rest : List Nat) (n : Nat) (hn : 0 < n) :
    (resize (t :: rest) n)[0]? = some t := by
  rw [resize_getElem? _ _ _ hn]
  simp

theorem constructRaw_valid (data : List Nat) (r : Report)
    (h : Report.constructRaw data = Except.ok r) : r.Valid := by
  cases data with
  | nil => rw [constructRaw_nil] at h; cases h
  | cons t rest =>
    rw [constructRaw_cons] at h
    split at h
    · rename_i hs
      cases h
      subst hs
      exact (valid_iff _).2 (Or.inl ⟨resize_head _ _ _ (by decide), resize_length _ _⟩)
    · split at h
      · rename_i hl
        cases h
        subst hl
        exact (valid_iff _).2 (Or.inr ⟨resize_head _ _ _ (by decide), resize_length _ _⟩)
      · cases h

theorem set_zero_head (v : List Nat) (b : Nat) (h : 0 < v.length) : (v.set 0 b)[0]? = some b := by
  rw [List.getElem?_set_self h]

theorem setType_valid (r : Report) (type : Nat) (h : (r.setType type).fault = none) :
    (r.setType type).report.Valid := by
  by_cases hs : type = ReportType.Short
  · subst hs
    rw [setType_short]
    refine (valid_iff _).2 (Or.inl ⟨set_zero_head _ _ ?_, ?_⟩)
    · rw [resize_length]; decide
    · simp only [List.length_set, resize_length]
  · by_cases hl : type = ReportType.Long
    · subst hl
      rw [setType_long]
      refine (valid_iff _).2 (Or.inr ⟨set_zero_head _ _ ?_, ?_⟩)
      · rw [resize_length]; decide
      · simp only [List.length_set, resize_length]
    · rw [setType_invalid r type hs hl] at h
      cases h

theorem setParams_valid (r : Report) (ps : List Nat) (hv : r.Valid)
    (h : (r.setParams ps).fault = none) : (r.setParams ps).report.Valid := by
  obtain ⟨h4, hn⟩ := valid_bounds r hv
  by_cases hp : ps.length ≤ r._data.length - HeaderLength
  · rw [setParams_ok r ps h4 hn hp]
    have hk : Offset.Parameters + ps.length ≤ r._data.length := by
      unfold Offset.Parameters HeaderLength at *; omega
    have h0 := splice_getElem?_lt r._data ps Offset.Parameters 0 hk (by decide)
    have hlen := splice_length r._data ps Offset.Parameters hk
    rw [valid_iff] at hv ⊢
    simp only [h0, hlen]
    exact hv
  · rw [setParams_assert r ps h4 hn (by omega)] at h
    cases h

theorem runOps_valid (ops : List Op) :
    ∀ (r r1 : Report), r.Valid → runOps ops r = some r1 → r1.Valid := by
  induction ops with
  | nil =>
    intro r r1 hv h
    simp only [runOps, Option.some.injEq] at h
    exact h ▸ hv
  | cons op ops ih =>
    intro r r1 hv h
    simp only [runOps] at h
    split at h
    · rename_i hf
      refine ih _ r1 ?_ h
      cases op with
      | setType t => exact setType_valid r t hf
      | setParams ps => exact setParams_valid r ps hv hf
    · cases h

/-- C1: every Report produced by the typed-fields constructor or by the raw-bytes
constructor, and every Report reached from it by a sequence of calls of `setType` and
`setParams` that all return, is valid: byte 0 is the Short or the Long code and the
buffer length is the header length plus the parameter length of byte 0. -/
theorem validity_invariant (type d f fn sw : Nat) (data : List Nat) (ops : List Op)
    (r r1 : Report)
    (hc : Report.construct type d f fn sw = Except.ok r ∨
      Report.constructRaw data = Except.ok r)
    (hops : runOps ops r = some r1) :
    (r1._data[0]? = some ReportType.Short ∨ r1._data[0]? = some ReportType.Long) ∧
      r1._data.length = HeaderLength + paramLength (r1._data[0]?.getD 0) := by
  have hv : r.Valid := by
    rcases hc with hc | hc
    · exact construct_valid type d f fn sw r hc
    · exact constructRaw_valid data r hc
  exact runOps_valid ops r r1 hv hops

/-- Witness for C1: a Long report built from fields, given three parameter bytes,
turned into a Short report and given one more parameter byte. -/
theorem validity_invariant_witness :
    (Report.construct 0x11 1 2 3 4 =
        Except.ok ⟨[0x11, 1, 2, 0x34, 0, 0, 0, 0, 0, 0, 0, 0, 0, 0, 0, 0, 0, 0, 0, 0, 0, 0, 0]⟩ ∨
      Report.constructRaw [] =
        Except.ok ⟨[0x11, 1, 2, 0x34, 0, 0, 0, 0, 0, 0, 0, 0, 0, 0, 0, 0, 0, 0, 0, 0, 0, 0, 0]⟩) ∧
    runOps [Op.setParams [7, 8, 9], Op.setType 0x10, Op.setParams [5]]
        ⟨[0x11, 1, 2, 0x34, 0, 0, 0, 0, 0, 0, 0, 0, 0, 0, 0, 0, 0, 0, 0, 0, 0, 0, 0]⟩ =
      some ⟨[0x10, 1, 2, 0x34, 5, 8, 9, 0, 0, 0]⟩ ∧
    ((([0x10, 1, 2, 0x34, 5, 8, 9, 0, 0, 0] : List Nat)[0]? = some ReportType.Short ∨
        ([0x10, 1, 2, 0x34, 5, 8, 9, 0, 0, 0] : List Nat)[0]? = some ReportType.Long) ∧
      ([0x10, 1, 2, 0x34, 5, 8, 9, 0, 0, 0] : List Nat).length =
        HeaderLength +
          paramLength (([0x10, 1, 2, 0x34, 5, 8, 9, 0, 0, 0] : List Nat)[0]?.getD 0)) :=
  ⟨Or.inl rfl, by decide,
    validity_invariant 0x11 1 2 3 4 [] [Op.setParams [7, 8, 9], Op.setType 0x10, Op.setParams [5]]
      ⟨[0x11, 1, 2, 0x34, 0, 0, 0, 0, 0, 0, 0, 0, 0, 0, 0, 0, 0, 0, 0, 0, 0, 0, 0]⟩
      ⟨[0x10, 1, 2, 0x34, 5, 8, 9, 0, 0, 0]⟩ (Or.inl rfl) (by decide)⟩

/-! ## The typed-fields constructor -/

theorem nibbles (fn sw : Nat) (hfn : fn ≤ 15) (hsw : sw ≤ 15) :
    ((fn <<< 4) ||| sw) >>> 4 = fn ∧ ((fn <<< 4) ||| sw) &&& 0x0f = sw := by
  interval_cases fn <;> interval_cases sw <;> exact ⟨rfl, rfl⟩

/-- C2: for a type code that is Short or Long and `function`, `sw_id` in 0..15, the
typed-fields constructor returns a Report whose buffer has the length of that type,
byte 0 the type code, byte 1 the device index, byte 2 the feature index, byte 3
`(function << 4) | sw_id`, and every byte from offset 4 to the end zero. -/
theorem construct_layout (type device_index feature_index function sw_id : Nat)
    (ht : type = ReportType.Short ∨ type = ReportType.Long)
    (hfn : function ≤ 15) (hsw : sw_id ≤ 15) :
    ∃ r, Report.construct type device_index feature_index function sw_id = Except.ok r ∧
      r._data.length = HeaderLength + paramLength type ∧
      r._data[0]? = some type ∧
      r._data[1]? = some device_index ∧
      r._data[2]? = some feature_index ∧
      r._data[3]? = some ((function <<< 4) ||| sw_id) ∧
      ∀ i, 4 ≤ i → i < r._data.length → r._data[i]? = some 0 := by
  rcases ht with ht | ht
  · subst ht
    refine ⟨_, construct_short device_index feature_index function sw_id hfn hsw,
      rfl, rfl, rfl, rfl, rfl, ?_⟩
    intro i h4 hi
    simp only [List.length_cons, List.length_nil] at hi
    interval_cases i <;> rfl
  · subst ht
    refine ⟨_, construct_long device_index feature_index function sw_id hfn hsw,
      rfl, rfl, rfl, rfl, rfl, ?_⟩
    intro i h4 hi
    simp only [List.length_cons, List.length_nil] at hi
    interval_cases i <;> rfl

/-- Witness for C2: a Long report for device 1, feature 2, function 3, software id 4. -/
theorem construct_layout_witness :
    ∃ r, Report.construct 0x11 1 2 3 4 = Except.ok r ∧
      r._data.length = HeaderLength + paramLength 0x11 ∧
      r._data[0]? = some 0x11 ∧
      r._data[1]? = some 1 ∧
      r._data[2]? = some 2 ∧
      r._data[3]? = some ((3 <<< 4) ||| 4) ∧
      ∀ i, 4 ≤ i → i < r._data.length → r._data[i]? = some 0 :=
  construct_layout 0x11 1 2 3 4 (Or.inr rfl) (by decide) (by decide)

/-- C3, as stated, fails: with `function = 16` the typed-fields constructor stops at
its first `assert` whatever the type, so for the type code 0x12 (neither Short nor
Long) it does not end with InvalidReportID, and for the Short code it does not
return a Report. -/
theorem construct_invalid_type_counterexample :
    (0x12 ≠ ReportType.Short ∧ 0x12 ≠ ReportType.Long) ∧
      Report.construct 0x12 0 0 16 0 = Except.error Fault.AssertionFailed ∧
      Report.construct 0x12 0 0 16 0 ≠ Except.error Fault.InvalidReportID ∧
      Report.construct ReportType.Short 0 0 16 0 = Except.error Fault.AssertionFailed := by
  refine ⟨⟨by decide, by decide⟩, rfl, ?_, rfl⟩
  intro h
  have h2 : Report.construct 0x12 0 0 16 0 = Except.error Fault.AssertionFailed := rfl
  rw [h2] at h
  cases h

/-- C3, amended: when `function` and `sw_id` are in 0..15 (the asserted
precondition), the typed-fields constructor ends with InvalidReportID for every type
code other than Short and Long and returns a Report for Short and for Long; the
raw-bytes constructor ends with InvalidReportID for every byte sequence whose first
byte is neither code, and returns a Report for every one whose first byte is Short
or Long. -/
theorem constructors_invalid_type (type device_index feature_index function sw_id : Nat)
    (hfn : function ≤ 15) (hsw : sw_id ≤ 15) :
    (type ≠ ReportType.Short → type ≠ ReportType.Long →
        Report.construct type device_index feature_index function sw_id =
          Except.error Fault.InvalidReportID) ∧
      (type = ReportType.Short ∨ type = ReportType.Long →
        ∃ r, Report.construct type device_index feature_index function sw_id = Except.ok r) ∧
      (∀ (t : Nat) (rest : List Nat), t ≠ ReportType.Short → t ≠ ReportType.Long →
        Report.constructRaw (t :: rest) = Except.error Fault.InvalidReportID) ∧
      (∀ (t : Nat) (rest : List Nat), t = ReportType.Short ∨ t = ReportType.Long →
        ∃ r, Report.constructRaw (t :: rest) = Except.ok r) := by
  refine ⟨construct_invalid type device_index feature_index function sw_id hfn hsw, ?_, ?_, ?_⟩
  · rintro (ht | ht)
    · exact ⟨_, ht ▸ construct_short device_index feature_index function sw_id hfn hsw⟩
    · exact ⟨_, ht ▸ construct_long device_index feature_index function sw_id hfn hsw⟩
  · intro t rest hs hl
    rw [constructRaw_cons, if_neg hs, if_neg hl]
  · intro t rest ht
    rw [constructRaw_cons]
    rcases ht with ht | ht
    · exact ⟨_, if_pos ht⟩
    · subst ht
      exact ⟨_, rfl⟩

/-- Witness for C3 (amended): type code 0x12 with function 3 and software id 4. -/
theorem constructors_invalid_type_witness :
    (3 ≤ 15 ∧ 4 ≤ 15) ∧
    ((0x12 ≠ ReportType.Short → 0x12 ≠ ReportType.Long →
        Report.construct 0x12 1 2 3 4 = Except.error Fault.InvalidReportID) ∧
      (0x12 = ReportType.Short ∨ 0x12 = ReportType.Long →
        ∃ r, Report.construct 0x12 1 2 3 4 = Except.ok r) ∧
      (∀ (t : Nat) (rest : List Nat), t ≠ ReportType.Short → t ≠ ReportType.Long →
        Report.constructRaw (t :: rest) = Except.error Fault.InvalidReportID) ∧
      (∀ (t : Nat) (rest : List Nat), t = ReportType.Short ∨ t = ReportType.Long →
        ∃ r, Report.constructRaw (t :: rest) = Except.ok r)) :=
  ⟨⟨by decide, by decide⟩, constructors_invalid_type 0x12 1 2 3 4 (by decide) (by decide)⟩

/-! ## The raw-bytes constructor -/

/-- C4: for a byte sequence whose first byte is the Short or the Long code, the
raw-bytes constructor returns a Report whose buffer has the length of that type,
agrees with the input at every offset both have, and is zero at every offset from
the end of the input on. -/
theorem constructRaw_layout (data : List Nat)
    (ht : data[0]? = some ReportType.Short ∨ data[0]? = some ReportType.Long) :
    ∃ r, Report.constructRaw data = Except.ok r ∧
      r._data.length = HeaderLength + paramLength (data[0]?.getD 0) ∧
      (∀ i, i < min data.length r._data.length → r._data[i]? = data[i]?) ∧
      (∀ i, data.length ≤ i → i < r._data.length → r._data[i]? = some 0) := by
  cases data with
  | nil => simp at ht
  | cons t rest =>
    simp only [List.getElem?_cons_zero, Option.some.injEq] at ht
    have key : ∀ n, HeaderLength + paramLength t = n →
        Report.constructRaw (t :: rest) = Except.ok ⟨resize (t :: rest) n⟩ := by
      intro n hn
      rw [constructRaw_cons]
      rcases ht with ht | ht
      · subst ht; subst hn; rfl
      · subst ht; subst hn; rfl
    refine ⟨_, key _ rfl, ?_, ?_, ?_⟩
    · simp only [resize_length, List.getElem?_cons_zero, Option.getD_some]
    · intro i hi
      simp only [resize_length] at hi
      have h1 : i < (t :: rest).length := by omega
      rw [resize_getElem? _ _ _ (by omega), List.getElem?_eq_getElem h1]
      rfl
    · intro i h1 hi
      simp only [resize_length] at hi
      rw [resize_getElem? _ _ _ hi, List.getElem?_eq_none h1]
      rfl

/-- Witness for C4: a three-byte input starting with the Short code. -/
theorem constructRaw_layout_witness :
    ∃ r, Report.constructRaw [0x10, 7, 9] = Except.ok r ∧
      r._data.length = HeaderLength + paramLength (([0x10, 7, 9] : List Nat)[0]?.getD 0) ∧
      (∀ i, i < min ([0x10, 7, 9] : List Nat).length r._data.length →
        r._data[i]? = ([0x10, 7, 9] : List Nat)[i]?) ∧
      (∀ i, ([0x10, 7, 9] : List Nat).length ≤ i → i < r._data.length →
        r._data[i]? = some 0) :=
  constructRaw_layout [0x10, 7, 9] (Or.inl rfl)

/-- C5: for a type code that is Short or Long and `function`, `sw_id` in 0..15,
the Report built from fields, given back to the raw-bytes constructor as its buffer,
yields the very same buffer; its bytes 0, 1 and 2 are the type, device index and
feature index given, and the high and low nibble of its byte 3 are the function and
the software id given. -/
theorem construct_roundtrip (type device_index feature_index function sw_id : Nat)
    (ht : type = ReportType.Short ∨ type = ReportType.Long)
    (hfn : function ≤ 15) (hsw : sw_id ≤ 15) :
    ∃ r, Report.construct type device_index feature_index function sw_id = Except.ok r ∧
      ∃ r2, Report.constructRaw r._data = Except.ok r2 ∧
        r2._data = r._data ∧
        r2._data[0]? = some type ∧
        r2._data[1]? = some device_index ∧
        r2._data[2]? = some feature_index ∧
        ∃ b, r2._data[3]? = some b ∧ b >>> 4 = function ∧ b &&& 0x0f = sw_id := by
  have hn := nibbles function sw_id hfn hsw
  rcases ht with ht | ht
  · subst ht
    refine ⟨_, construct_short device_index feature_index function sw_id hfn hsw, _, ?_,
      rfl, rfl, rfl, rfl, _, rfl, hn⟩
    rw [constructRaw_cons, if_pos rfl]
    exact congrArg (fun l => Except.ok (Report.mk l)) (resize_of_length _)
  · subst ht
    refine ⟨_, construct_long device_index feature_index function sw_id hfn hsw, _, ?_,
      rfl, rfl, rfl, rfl, _, rfl, hn⟩
    rw [constructRaw_cons, if_neg (by decide), if_pos rfl]
    exact congrArg (fun l => Except.ok (Report.mk l)) (resize_of_length _)

/-- Witness for C5: a Short report for device 255, feature 5, function 15, software
id 1. -/
theorem construct_roundtrip_witness :
    ∃ r, Report.construct 0x10 255 5 15 1 = Except.ok r ∧
      ∃ r2, Report.constructRaw r._data = Except.ok r2 ∧
        r2._data = r._data ∧
        r2._data[0]? = some 0x10 ∧
        r2._data[1]? = some 255 ∧
        r2._data[2]? = some 5 ∧
        ∃ b, r2._data[3]? = some b ∧ b >>> 4 = 15 ∧ b &&& 0x0f = 1 :=
  construct_roundtrip 0x10 255 5 15 1 (Or.inl rfl) (by decide) (by decide)

/-! ## `setParams` -/

/-- C6: on a valid Report, `setParams` with at most `buffer.length - HeaderLength`
bytes returns, leaves the buffer length as it was, makes the bytes from offset 4 on
equal to the bytes given, and leaves every other byte as it was: the four header
bytes and the bytes from offset `4 + len(params)` on. -/
theorem setParams_frame (r : Report) (params : List Nat) (hv : r.Valid)
    (hp : params.length ≤ r._data.length - HeaderLength) :
    (r.setParams params).fault = none ∧
      (r.setParams params).report._data.length = r._data.length ∧
      (∀ j, j < params.length → (r.setParams params).report._data[4 + j]? = params[j]?) ∧
      (∀ j, j < 4 → (r.setParams params).report._data[j]? = r._data[j]?) ∧
      (∀ j, 4 + params.length ≤ j →
        (r.setParams params).report._data[j]? = r._data[j]?) := by
  obtain ⟨h4, hn⟩ := valid_bounds r hv
  have hk : Offset.Parameters + params.length ≤ r._data.length := by
    unfold Offset.Parameters HeaderLength at *; omega
  rw [setParams_ok r params h4 hn hp]
  refine ⟨rfl, splice_length _ _ _ hk, ?_, ?_, ?_⟩
  · intro j hj
    exact splice_getElem?_mid r._data params Offset.Parameters j hk hj
  · intro j hj
    exact splice_getElem?_lt r._data params Offset.Parameters j hk hj
  · intro j hj
    exact splice_getElem?_ge r._data params Offset.Parameters j hk hj

/-- Witness for C6: two parameter bytes written into a Short report that already
holds six. -/
theorem setParams_frame_witness :
    (Report.mk [0x10, 1, 2, 3, 4, 5, 6, 7, 8, 9]).Valid ∧
    ([0xAA, 0xBB] : List Nat).length ≤
      (Report.mk [0x10, 1, 2, 3, 4, 5, 6, 7, 8, 9])._data.length - HeaderLength ∧
    (Report.mk [0x10, 1, 2, 3, 4, 5, 6, 7, 8, 9]).setParams [0xAA, 0xBB] =
      ⟨none, ⟨[0x10, 1, 2, 3, 0xAA, 0xBB, 6, 7, 8, 9]⟩⟩ ∧
    (((Report.mk [0x10, 1, 2, 3, 4, 5, 6, 7, 8, 9]).setParams [0xAA, 0xBB]).fault = none ∧
      ((Report.mk [0x10, 1, 2, 3, 4, 5, 6, 7, 8, 9]).setParams [0xAA, 0xBB]).report._data.length =
        (Report.mk [0x10, 1, 2, 3, 4, 5, 6, 7, 8, 9])._data.length ∧
      (∀ j, j < ([0xAA, 0xBB] : List Nat).length →
        ((Report.mk [0x10, 1, 2, 3, 4, 5, 6, 7, 8, 9]).setParams [0xAA, 0xBB]).report._data[4 + j]? =
          ([0xAA, 0xBB] : List Nat)[j]?) ∧
      (∀ j, j < 4 →
        ((Report.mk [0x10, 1, 2, 3, 4, 5, 6, 7, 8, 9]).setParams [0xAA, 0xBB]).report._data[j]? =
          (Report.mk [0x10, 1, 2, 3, 4, 5, 6, 7, 8, 9])._data[j]?) ∧
      (∀ j, 4 + ([0xAA, 0xBB] : List Nat).length ≤ j →
        ((Report.mk [0x10, 1, 2, 3, 4, 5, 6, 7, 8, 9]).setParams [0xAA, 0xBB]).report._data[j]? =
          (Report.mk [0x10, 1, 2, 3, 4, 5, 6, 7, 8, 9])._data[j]?)) :=
  ⟨by decide, by decide, by decide,
    setParams_frame ⟨[0x10, 1, 2, 3, 4, 5, 6, 7, 8, 9]⟩ [0xAA, 0xBB] (by decide) (by decide)⟩

/-- C7: `Report(Short, device_index=1, feature_index=0, function=0, sw_id=0)`
followed by `setParams([0x42])` leaves the buffer
`[0x10, 0x01, 0x00, 0x00, 0x42, 0x00, 0x00, 0x00, 0x00, 0x00]`, of length 10; the
Short length is 4 + 6 and the Long length 4 + 19. -/
theorem example_short_report :
    (Report.construct ReportType.Short 1 0 0 0).map (fun r => r.setParams [0x42]) =
        Except.ok
          ⟨none, ⟨[0x10, 0x01, 0x00, 0x00, 0x42, 0x00, 0x00, 0x00, 0x00, 0x00]⟩⟩ ∧
      ([0x10, 0x01, 0x00, 0x00, 0x42, 0x00, 0x00, 0x00, 0x00, 0x00] : List Nat).length = 10 ∧
      HeaderLength = 4 ∧ ShortParamLength = 6 ∧ LongParamLength = 19 ∧
      HeaderLength + ShortParamLength = 10 ∧ HeaderLength + LongParamLength = 23 :=
  ⟨rfl, rfl, rfl, rfl, rfl, rfl, rfl⟩

/-! ## `setType` -/

theorem setType_header (d : List Nat) (n j b : Nat) (hj : 0 < j) (hjd : j < d.length)
    (hjn : j < n) : ((resize d n).set 0 b)[j]? = d[j]? := by
  rw [List.getElem?_set_ne (by omega), resize_getElem? _ _ _ hjn, List.getElem?_eq_getElem hjd]
  rfl

/-- C8: on a valid Report, `setType` with the Short or the Long code returns; the
buffer then has the length of the new type, byte 0 is the new type code, and bytes 1,
2 and 3 are what they were. -/
theorem setType_frame (r : Report) (new_type : Nat) (hv : r.Valid)
    (ht : new_type = ReportType.Short ∨ new_type = ReportType.Long) :
    (r.setType new_type).fault = none ∧
      (r.setType new_type).report._data.length = HeaderLength + paramLength new_type ∧
      (r.setType new_type).report._data[0]? = some new_type ∧
      (r.setType new_type).report._data[1]? = r._data[1]? ∧
      (r.setType new_type).report._data[2]? = r._data[2]? ∧
      (r.setType new_type).report._data[3]? = r._data[3]? := by
  have hlen : 10 ≤ r._data.length := by
    rcases (valid_iff r).1 hv with ⟨_, hl⟩ | ⟨_, hl⟩ <;> rw [hl] <;> decide
  rcases ht with ht | ht
  · subst ht
    rw [setType_short]
    refine ⟨rfl, ?_, set_zero_head _ _ ?_, ?_, ?_, ?_⟩
    · simp only [List.length_set, resize_length]; rfl
    · rw [resize_length]; decide
    · exact setType_header _ _ 1 _ (by decide) (by omega) (by decide)
    · exact setType_header _ _ 2 _ (by decide) (by omega) (by decide)
    · exact setType_header _ _ 3 _ (by decide) (by omega) (by decide)
  · subst ht
    rw [setType_long]
    refine ⟨rfl, ?_, set_zero_head _ _ ?_, ?_, ?_, ?_⟩
    · simp only [List.length_set, resize_length]; rfl
    · rw [resize_length]; decide
    · exact setType_header _ _ 1 _ (by decide) (by omega) (by decide)
    · exact setType_header _ _ 2 _ (by decide) (by omega) (by decide)
    · exact setType_header _ _ 3 _ (by decide) (by omega) (by decide)

/-- Witness for C8: a Short report turned into a Long one. -/
theorem setType_frame_witness :
    (Report.mk [0x10, 1, 2, 3, 4, 5, 6, 7, 8, 9]).Valid ∧
    (0x11 = ReportType.Short ∨ 0x11 = ReportType.Long) ∧
    (Report.mk [0x10, 1, 2, 3, 4, 5, 6, 7, 8, 9]).setType 0x11 =
      ⟨none, ⟨[0x11, 1, 2, 3, 4, 5, 6, 7, 8, 9, 0, 0, 0, 0, 0, 0, 0, 0, 0, 0, 0, 0, 0]⟩⟩ ∧
    (((Report.mk [0x10, 1, 2, 3, 4, 5, 6, 7, 8, 9]).setType 0x11).fault = none ∧
      ((Report.mk [0x10, 1, 2, 3, 4, 5, 6, 7, 8, 9]).setType 0x11).report._data.length =
        HeaderLength + paramLength 0x11 ∧
      ((Report.mk [0x10, 1, 2, 3, 4, 5, 6, 7, 8, 9]).setType 0x11).report._data[0]? =
        some 0x11 ∧
      ((Report.mk [0x10, 1, 2, 3, 4, 5, 6, 7, 8, 9]).setType 0x11).report._data[1]? =
        (Report.mk [0x10, 1, 2, 3, 4, 5, 6, 7, 8, 9])._data[1]? ∧
      ((Report.mk [0x10, 1, 2, 3, 4, 5, 6, 7, 8, 9]).setType 0x11).report._data[2]? =
        (Report.mk [0x10, 1, 2, 3, 4, 5, 6, 7, 8, 9])._data[2]? ∧
      ((Report.mk [0x10, 1, 2, 3, 4, 5, 6, 7, 8, 9]).setType 0x11).report._data[3]? =
        (Report.mk [0x10, 1, 2, 3, 4, 5, 6, 7, 8, 9])._data[3]?) :=
  ⟨by decide, by decide, by decide,
    setType_frame ⟨[0x10, 1, 2, 3, 4, 5, 6, 7, 8, 9]⟩ 0x11 (by decide) (by decide)⟩

/-- C9: for every Report and every type code, `setType` ends with InvalidReportID
exactly when the code is neither Short nor Long, it ends in no other way than by
returning or by that exception, and when it does not return the Report is exactly
what it was before the call. -/
theorem setType_atomic (r : Report) (new_type : Nat) :
    ((r.setType new_type).fault = some Fault.InvalidReportID ↔
        (new_type ≠ ReportType.Short ∧ new_type ≠ ReportType.Long)) ∧
      ((r.setType new_type).fault = none ∨
        (r.setType new_type).fault = some Fault.InvalidReportID) ∧
      ((r.setType new_type).fault ≠ none → (r.setType new_type).report = r) := by
  by_cases hs : new_type = ReportType.Short
  · subst hs
    rw [setType_short]
    simp
  · by_cases hl : new_type = ReportType.Long
    · subst hl
      rw [setType_long]
      simp
    · rw [setType_invalid r new_type hs hl]
      simp [hs, hl]

/-! ## `std::search` finds exactly the contiguous sub-sequences -/

theorem searchScan_found_iff (needle : List Nat) :
    ∀ hay : List Nat, searchScan hay needle = Scan.found ↔ needle <+: hay := by
  induction needle with
  | nil =>
    intro hay
    simp [searchScan]
  | cons n ns ih =>
    intro hay
    cases hay with
    | nil => simp [searchScan]
    | cons h hs =>
      by_cases e : h = n
      · subst e
        simp only [searchScan, if_true, ih hs]
        exact (List.prefix_cons_inj h).symm
      · simp only [searchScan, if_neg e]
        constructor
        · intro c; cases c
        · intro c
          exact absurd (List.cons_prefix_cons.1 c).1.symm e

theorem searchScan_hayEnd (needle : List Nat) :
    ∀ hay : List Nat, searchScan hay needle = Scan.hayEnd → hay.length < needle.length := by
  induction needle with
  | nil =>
    intro hay h
    simp [searchScan] at h
  | cons n ns ih =>
    intro hay h
    cases hay with
    | nil => simp
    | cons a hs =>
      by_cases e : a = n
      · simp only [searchScan, if_pos e] at h
        have := ih hs h
        simp only [List.length_cons]
        omega
      · simp only [searchScan, if_neg e] at h
        cases h

theorem searchFrom_bounds (needle : List Nat) :
    ∀ (hay : List Nat) (first : Nat),
      first ≤ searchFrom needle hay first ∧ searchFrom needle hay first ≤ first + hay.length := by
  intro hay
  induction hay with
  | nil =>
    intro first
    simp [searchFrom]
  | cons h t ih =>
    intro first
    simp only [searchFrom]
    split
    · simp
    · simp
    · have := ih (first + 1)
      simp only [List.length_cons]
      omega

theorem searchFrom_found_iff (needle : List Nat) (hne : needle ≠ []) :
    ∀ (hay : List Nat) (first : Nat),
      searchFrom needle hay first ≠ first + hay.length ↔ needle <:+: hay := by
  intro hay
  induction hay with
  | nil =>
    intro first
    simp [searchFrom, hne]
  | cons h t ih =>
    intro first
    rw [List.infix_cons_iff]
    simp only [searchFrom]
    split
    · rename_i hf
      have hp := (searchScan_found_iff needle (h :: t)).1 hf
      simp only [List.length_cons]
      constructor
      · intro _; exact Or.inl hp
      · intro _; omega
    · rename_i he
      have hlen := searchScan_hayEnd needle (h :: t) he
      constructor
      · intro c; exact absurd rfl c
      · rintro (c | c)
        · have := c.length_le; omega
        · have := c.length_le
          simp only [List.length_cons] at hlen
          omega
    · rename_i hm
      have hnp : ¬ needle <+: h :: t := by
        intro c
        rw [(searchScan_found_iff needle (h :: t)).2 c] at hm
        cases hm
      have e : first + (h :: t).length = first + 1 + t.length := by
        simp only [List.length_cons]; omega
      rw [e, ih (first + 1)]
      constructor
      · intro c; exact Or.inr c
      · rintro (c | c)
        · exact absurd c hnp
        · exact c

theorem search_found_iff (hay needle : List Nat) (hne : needle ≠ []) :
    search hay needle ≠ hay.length ↔ needle <:+: hay := by
  have h := searchFrom_found_iff needle hne hay 0
  simpa [search] using h

/-! ## `getSupportedReports`: the short bit -/

theorem short_found_iff (rdesc : List Nat) :
    (if search rdesc ShortReportDesc = rdesc.length then search rdesc ShortReportDesc2
        else search rdesc ShortReportDesc) ≠ rdesc.length ↔
      (ShortReportDesc <:+: rdesc ∨ ShortReportDesc2 <:+: rdesc) := by
  have h1 := search_found_iff rdesc ShortReportDesc (by decide)
  have h2 := search_found_iff rdesc ShortReportDesc2 (by decide)
  by_cases a : search rdesc ShortReportDesc = rdesc.length
  · rw [if_pos a, h2]
    have n1 : ¬ ShortReportDesc <:+: rdesc := fun c => h1.2 c a
    exact ⟨Or.inr, fun c => c.resolve_left n1⟩
  · rw [if_neg a]
    exact ⟨fun _ => Or.inl (h1.1 a), fun _ => a⟩

theorem shortSupported_flags (s l : Prop) [Decidable s] [Decidable l] :
    shortSupported
        (if l then ((if s then (0 ||| HIDPP_REPORT_SHORT_SUPPORTED) % 256 else 0) |||
          HIDPP_REPORT_LONG_SUPPORTED) % 256
        else (if s then (0 ||| HIDPP_REPORT_SHORT_SUPPORTED) % 256 else 0)) = true ↔ s := by
  by_cases hs : s <;> by_cases hl : l <;> simp [hs, hl] <;> decide

/-- C10: for every descriptor, whatever the first long search is handed and whatever
the long searches find, `getSupportedReports` sets the short-supported bit exactly
when the descriptor contains `ShortReportDesc` or `ShortReportDesc2` as a contiguous
sub-sequence; both are 22 bytes long. -/
theorem short_supported_iff (longRange rdesc : List Nat) :
    (shortSupported (getSupportedReports longRange rdesc) = true ↔
        (ShortReportDesc <:+: rdesc ∨ ShortReportDesc2 <:+: rdesc)) ∧
      ShortReportDesc.length = 22 ∧ ShortReportDesc2.length = 22 := by
  refine ⟨?_, rfl, rfl⟩
  rw [← short_found_iff rdesc]
  exact shortSupported_flags _ _

/-! ## `getSupportedReports`: the long bit -/

theorem search_too_long (hay needle : List Nat) (h : hay.length < needle.length) :
    search hay needle = hay.length := by
  have hne : needle ≠ [] := by
    intro c
    rw [c] at h
    simp at h
  by_contra c
  have hi := (search_found_iff hay needle hne).1 c
  have := hi.length_le
  omega

theorem longSupported_flags (s l : Prop) [Decidable s] [Decidable l] :
    longSupported
        (if l then ((if s then (0 ||| HIDPP_REPORT_SHORT_SUPPORTED) % 256 else 0) |||
          HIDPP_REPORT_LONG_SUPPORTED) % 256
        else (if s then (0 ||| HIDPP_REPORT_SHORT_SUPPORTED) % 256 else 0)) = true ↔ l := by
  by_cases hs : s <;> by_cases hl : l <;> simp [hs, hl] <;> decide

theorem longSupported_iff (longRange rdesc : List Nat) :
    longSupported (getSupportedReports longRange rdesc) = true ↔
      (if search rdesc longRange = rdesc.length then search rdesc LongReportDesc2
        else search rdesc longRange) ≠ rdesc.length :=
  longSupported_flags _ _

theorem long_alternate_found (longRange rdesc : List Nat) (h : LongReportDesc2 <:+: rdesc) :
    (if search rdesc longRange = rdesc.length then search rdesc LongReportDesc2
      else search rdesc longRange) ≠ rdesc.length := by
  by_cases a : search rdesc longRange = rdesc.length
  · rw [if_pos a]
    exact (search_found_iff rdesc LongReportDesc2 (by decide)).2 h
  · rw [if_neg a]
    exact a

theorem search_primary_for_alternate : search LongReportDesc LongReportDesc2 = 22 := by
  decide

/-- C11, at the failing input: on the descriptor that is exactly `LongReportDesc`,
which contains the primary long sequence, the long-supported bit is not set. The
pattern range handed to the first long search runs from the start of `LongReportDesc`
to the end of `LongReportDesc2`, two distinct arrays, so it is longer than 22 bytes
wherever the arrays lie, and a 22-byte descriptor cannot contain it; the second search
looks for `LongReportDesc2`, which differs in bytes 4 to 7. -/
theorem long_primary_missed (longRange : List Nat)
    (h : LongReportDesc.length < longRange.length) :
    LongReportDesc <:+: LongReportDesc ∧
      longSupported (getSupportedReports longRange LongReportDesc) = false ∧
      getSupportedReports longRange LongReportDesc = 0 := by
  have e : getSupportedReports longRange LongReportDesc = 0 := by
    have h1 := search_too_long LongReportDesc longRange h
    have h2 := search_primary_for_alternate
    have h3 : search LongReportDesc ShortReportDesc = 22 := by decide
    have h4 : search LongReportDesc ShortReportDesc2 = 22 := by decide
    have hl : LongReportDesc.length = 22 := rfl
    simp only [getSupportedReports, h1, h2, h3, h4, hl]
    decide
  refine ⟨List.infix_refl _, ?_, e⟩
  rw [e]
  decide

/-- Witness for C11: the pattern range of the in-order layout, 66 bytes. -/
theorem long_primary_missed_witness :
    LongReportDesc.length < longRangeInOrder.length ∧
    (LongReportDesc <:+: LongReportDesc ∧
      longSupported (getSupportedReports longRangeInOrder LongReportDesc) = false ∧
      getSupportedReports longRangeInOrder LongReportDesc = 0) :=
  ⟨by decide, long_primary_missed longRangeInOrder (by decide)⟩

theorem flags_of_too_long (longRange rdesc : List Nat) (h : rdesc.length < longRange.length) :
    getSupportedReports longRange rdesc =
      (let ret := 0
       let it := search rdesc ShortReportDesc
       let it := if it = rdesc.length then search rdesc ShortReportDesc2 else it
       let ret :=
         if it ≠ rdesc.length then (ret ||| HIDPP_REPORT_SHORT_SUPPORTED) % 256 else ret
       let it := search rdesc LongReportDesc2
       let ret :=
         if it ≠ rdesc.length then (ret ||| HIDPP_REPORT_LONG_SUPPORTED) % 256 else ret
       ret) := by
  simp only [getSupportedReports, search_too_long rdesc longRange h, if_true]

/-- C12, on the reference descriptors: with the pattern range of the first long
search longer than 44 bytes (as it is when the four arrays lie in declaration order),
`getSupportedReports` returns the short flag alone on `ShortReportDesc` and on
`ShortReportDesc2`, the long flag alone on `LongReportDesc2`, 0 on the empty
descriptor and both flags on `ShortReportDesc` followed by `LongReportDesc2`; but on
`LongReportDesc` it returns 0, not the long flag, and on `ShortReportDesc` followed by
`LongReportDesc` the short flag alone, not both. -/
theorem reference_descriptor_flags (longRange : List Nat) (h : 44 < longRange.length) :
    getSupportedReports longRange ShortReportDesc = HIDPP_REPORT_SHORT_SUPPORTED ∧
      getSupportedReports longRange ShortReportDesc2 = HIDPP_REPORT_SHORT_SUPPORTED ∧
      getSupportedReports longRange LongReportDesc2 = HIDPP_REPORT_LONG_SUPPORTED ∧
      getSupportedReports longRange [] = 0 ∧
      getSupportedReports longRange (ShortReportDesc ++ LongReportDesc2) =
        HIDPP_REPORT_SHORT_SUPPORTED ||| HIDPP_REPORT_LONG_SUPPORTED ∧
      getSupportedReports longRange LongReportDesc = 0 ∧
      getSupportedReports longRange LongReportDesc ≠ HIDPP_REPORT_LONG_SUPPORTED ∧
      getSupportedReports longRange (ShortReportDesc ++ LongReportDesc) =
        HIDPP_REPORT_SHORT_SUPPORTED ∧
      getSupportedReports longRange (ShortReportDesc ++ LongReportDesc) ≠
        HIDPP_REPORT_SHORT_SUPPORTED ||| HIDPP_REPORT_LONG_SUPPORTED := by
  have l1 : ShortReportDesc.length < longRange.length :=
    Nat.lt_trans (by decide : ShortReportDesc.length < 44) h
  have l2 : ShortReportDesc2.length < longRange.length :=
    Nat.lt_trans (by decide : ShortReportDesc2.length < 44) h
  have l3 : LongReportDesc2.length < longRange.length :=
    Nat.lt_trans (by decide : LongReportDesc2.length < 44) h
  have l4 : ([] : List Nat).length < longRange.length :=
    Nat.lt_trans (by decide : ([] : List Nat).length < 44) h
  have l5 : (ShortReportDesc ++ LongReportDesc2).length < longRange.length :=
    Nat.lt_of_le_of_lt (by decide : (ShortReportDesc ++ LongReportDesc2).length ≤ 44) h
  have l6 : LongReportDesc.length < longRange.length :=
    Nat.lt_trans (by decide : LongReportDesc.length < 44) h
  have l7 : (ShortReportDesc ++ LongReportDesc).length < longRange.length :=
    Nat.lt_of_le_of_lt (by decide : (ShortReportDesc ++ LongReportDesc).length ≤ 44) h
  rw [flags_of_too_long _ _ l1, flags_of_too_long _ _ l2, flags_of_too_long _ _ l3,
    flags_of_too_long _ _ l4, flags_of_too_long _ _ l5, flags_of_too_long _ _ l6,
    flags_of_too_long _ _ l7]
  decide

/-- Witness for C12: the pattern range of the in-order layout, 66 bytes. -/
theorem reference_descriptor_flags_witness :
    44 < longRangeInOrder.length ∧
    (getSupportedReports longRangeInOrder ShortReportDesc = HIDPP_REPORT_SHORT_SUPPORTED ∧
      getSupportedReports longRangeInOrder ShortReportDesc2 = HIDPP_REPORT_SHORT_SUPPORTED ∧
      getSupportedReports longRangeInOrder LongReportDesc2 = HIDPP_REPORT_LONG_SUPPORTED ∧
      getSupportedReports longRangeInOrder [] = 0 ∧
      getSupportedReports longRangeInOrder (ShortReportDesc ++ LongReportDesc2) =
        HIDPP_REPORT_SHORT_SUPPORTED ||| HIDPP_REPORT_LONG_SUPPORTED ∧
      getSupportedReports longRangeInOrder LongReportDesc = 0 ∧
      getSupportedReports longRangeInOrder LongReportDesc ≠ HIDPP_REPORT_LONG_SUPPORTED ∧
      getSupportedReports longRangeInOrder (ShortReportDesc ++ LongReportDesc) =
        HIDPP_REPORT_SHORT_SUPPORTED ∧
      getSupportedReports longRangeInOrder (ShortReportDesc ++ LongReportDesc) ≠
        HIDPP_REPORT_SHORT_SUPPORTED ||| HIDPP_REPORT_LONG_SUPPORTED) :=
  ⟨by decide, reference_descriptor_flags longRangeInOrder (by decide)⟩

/-- C19: whatever pattern range the first long search is handed and whatever it
finds, a descriptor that contains `LongReportDesc2` as a contiguous sub-sequence gets
the long-supported bit, and a descriptor that contains `ShortReportDesc2` gets the
short-supported bit. -/
theorem alternate_orderings_honoured (longRange rdesc : List Nat) :
    (LongReportDesc2 <:+: rdesc →
        longSupported (getSupportedReports longRange rdesc) = true) ∧
      (ShortReportDesc2 <:+: rdesc →
        shortSupported (getSupportedReports longRange rdesc) = true) := by
  constructor
  · intro h
    exact (longSupported_iff longRange rdesc).2 (long_alternate_found longRange rdesc h)
  · intro h
    exact (shortSupported_flags _ _).2 ((short_found_iff rdesc).2 (Or.inr h))

/-- Witness for C19: the descriptor made of `ShortReportDesc2` followed by
`LongReportDesc2`, with the pattern range of the in-order layout. -/
theorem alternate_orderings_honoured_witness :
    LongReportDesc2 <:+: ShortReportDesc2 ++ LongReportDesc2 ∧
      ShortReportDesc2 <:+: ShortReportDesc2 ++ LongReportDesc2 ∧
      longSupported
        (getSupportedReports longRangeInOrder (ShortReportDesc2 ++ LongReportDesc2)) = true ∧
      shortSupported
        (getSupportedReports longRangeInOrder (ShortReportDesc2 ++ LongReportDesc2)) = true :=
  ⟨(List.suffix_append _ _).isInfix,
    (List.prefix_append _ _).isInfix,
    (alternate_orderings_honoured longRangeInOrder (ShortReportDesc2 ++ LongReportDesc2)).1
      ((List.suffix_append _ _).isInfix),
    (alternate_orderings_honoured longRangeInOrder (ShortReportDesc2 ++ LongReportDesc2)).2
      ((List.prefix_append _ _).isInfix)⟩

/-! ## Error classification -/

theorem valid_bytes (r : Report) (hv : r.Valid) :
    ∃ b0 b1 b2 b3 b4 b5 rest, r._data = b0 :: b1 :: b2 :: b3 :: b4 :: b5 :: rest := by
  have hlen : 10 ≤ r._data.length := by
    rcases (valid_iff r).1 hv with ⟨_, hl⟩ | ⟨_, hl⟩ <;> rw [hl] <;> decide
  match hd : r._data, hlen with
  | b0 :: b1 :: b2 :: b3 :: b4 :: b5 :: rest, _ => exact ⟨b0, b1, b2, b3, b4, b5, rest, rfl⟩
  | [], h => simp at h
  | [_], h => simp at h
  | [_, _], h => simp at h
  | [_, _, _], h => simp at h
  | [_, _, _, _], h => simp at h
  | [_, _, _, _, _], h => simp at h

theorem isError10_eval (ErrorID b0 b1 b2 b3 b4 b5 : Nat) (rest : List Nat)
    (error : hidpp10_error) :
    Report.isError10 ErrorID ⟨b0 :: b1 :: b2 :: b3 :: b4 :: b5 :: rest⟩ error =
      Except.ok
        (if b0 = ReportType.Short ∧ b2 = ErrorID then
          (true, { sub_id := b3, address := b4, error_code := b5 })
        else (false, error)) := by
  by_cases h0 : b0 = ReportType.Short <;> by_cases h2 : b2 = ErrorID <;>
    simp [Report.isError10, readAt, Offset.ReportType, Offset.SubID, bind, Except.bind, pure,
      Except.pure, h0, h2]

theorem isError20_eval (ErrorID b0 b1 b2 b3 b4 b5 : Nat) (rest : List Nat)
    (error : hidpp20_error) :
    Report.isError20 ErrorID ⟨b0 :: b1 :: b2 :: b3 :: b4 :: b5 :: rest⟩ error =
      Except.ok
        (if b0 = ReportType.Long ∧ b2 = ErrorID then
          (true, { feature_index := b3, function := (b4 >>> 4) &&& 0x0f,
                   software_id := b4 &&& 0x0f, error_code := b5 })
        else (false, error)) := by
  by_cases h0 : b0 = ReportType.Long <;> by_cases h2 : b2 = ErrorID <;>
    simp [Report.isError20, readAt, Offset.ReportType, Offset.Feature, bind, Except.bind, pure,
      Except.pure, h0, h2]

theorem byte_nibbles (b : Nat) :
    (b >>> 4) &&& 0x0f = (b / 16) % 16 ∧ b &&& 0x0f = b % 16 := by
  have h := Nat.and_pow_two_sub_one_eq_mod b 4
  have h2 := Nat.and_pow_two_sub_one_eq_mod (b >>> 4) 4
  rw [Nat.shiftRight_eq_div_pow] at h2 ⊢
  exact ⟨h2, h⟩

theorem byte_repack (b : Nat) (hb : b < 256) :
    b = (((b >>> 4) &&& 0x0f) <<< 4) ||| (b &&& 0x0f) := by
  interval_cases b <;> rfl

/-- C13: on a valid Report and whatever the output struct holds, `isError10` returns;
it returns true exactly when byte 0 is the Short code and byte 2 is the reserved
sub-id; when it returns true the output struct holds bytes 3, 4 and 5 as `sub_id`,
`address` and `error_code`; when it returns false the output struct is as it was. -/
theorem isError10_classifies (ErrorID : Nat) (r : Report) (error : hidpp10_error)
    (hv : r.Valid) :
    ∃ ret out, r.isError10 ErrorID error = Except.ok (ret, out) ∧
      (ret = true ↔ (r._data[0]? = some ReportType.Short ∧ r._data[2]? = some ErrorID)) ∧
      (ret = true →
        r._data[3]? = some out.sub_id ∧ r._data[4]? = some out.address ∧
          r._data[5]? = some out.error_code) ∧
      (ret = false → out = error) := by
  obtain ⟨b0, b1, b2, b3, b4, b5, rest, hd⟩ := valid_bytes r hv
  obtain ⟨d⟩ := r
  simp only at hd
  subst hd
  rw [isError10_eval]
  by_cases h : b0 = ReportType.Short ∧ b2 = ErrorID
  · rw [if_pos h]
    refine ⟨true, _, rfl, ?_, ?_, ?_⟩
    · simp [h.1, h.2]
    · intro _; exact ⟨by simp, by simp, by simp⟩
    · intro c; cases c
  · rw [if_neg h]
    refine ⟨false, _, rfl, ?_, ?_, ?_⟩
    · simpa using h
    · intro c; cases c
    · intro _; rfl

/-- Witness for C13: a Short report whose byte 2 is 0x8F, taken as the reserved
sub-id. -/
theorem isError10_classifies_witness :
    (Report.mk [0x10, 1, 0x8F, 3, 4, 5, 6, 7, 8, 9]).Valid ∧
    (Report.mk [0x10, 1, 0x8F, 3, 4, 5, 6, 7, 8, 9]).isError10 0x8F ⟨0, 0, 0⟩ =
      Except.ok (true, ⟨3, 4, 5⟩) ∧
    ∃ ret out,
      (Report.mk [0x10, 1, 0x8F, 3, 4, 5, 6, 7, 8, 9]).isError10 0x8F ⟨0, 0, 0⟩ =
        Except.ok (ret, out) ∧
      (ret = true ↔
        ((Report.mk [0x10, 1, 0x8F, 3, 4, 5, 6, 7, 8, 9])._data[0]? = some ReportType.Short ∧
          (Report.mk [0x10, 1, 0x8F, 3, 4, 5, 6, 7, 8, 9])._data[2]? = some 0x8F)) ∧
      (ret = true →
        (Report.mk [0x10, 1, 0x8F, 3, 4, 5, 6, 7, 8, 9])._data[3]? = some out.sub_id ∧
          (Report.mk [0x10, 1, 0x8F, 3, 4, 5, 6, 7, 8, 9])._data[4]? = some out.address ∧
          (Report.mk [0x10, 1, 0x8F, 3, 4, 5, 6, 7, 8, 9])._data[5]? = some out.error_code) ∧
      (ret = false → out = ⟨0, 0, 0⟩) :=
  ⟨by decide, rfl,
    isError10_classifies 0x8F ⟨[0x10, 1, 0x8F, 3, 4, 5, 6, 7, 8, 9]⟩ ⟨0, 0, 0⟩ (by decide)⟩

/-- C14: on a valid Report and whatever the output struct holds, `isError20` returns;
it returns true exactly when byte 0 is the Long code and byte 2 is the reserved
feature index; when it returns true the output struct holds the high nibble of byte 4
as `function`, its low nibble as `software_id` (both at most 15) and byte 5 as
`error_code`; when it returns false the output struct is as it was. -/
theorem isError20_classifies (ErrorID : Nat) (r : Report) (error : hidpp20_error)
    (hv : r.Valid) :
    ∃ ret out, r.isError20 ErrorID error = Except.ok (ret, out) ∧
      (ret = true ↔ (r._data[0]? = some ReportType.Long ∧ r._data[2]? = some ErrorID)) ∧
      (ret = true →
        ∃ b4, r._data[4]? = some b4 ∧
          out.function = (b4 >>> 4) &&& 0x0f ∧ out.software_id = b4 &&& 0x0f ∧
          out.function = (b4 / 16) % 16 ∧ out.software_id = b4 % 16 ∧
          out.function ≤ 15 ∧ out.software_id ≤ 15 ∧
          r._data[5]? = some out.error_code) ∧
      (ret = false → out = error) := by
  obtain ⟨b0, b1, b2, b3, b4, b5, rest, hd⟩ := valid_bytes r hv
  obtain ⟨d⟩ := r
  simp only at hd
  subst hd
  rw [isError20_eval]
  by_cases h : b0 = ReportType.Long ∧ b2 = ErrorID
  · rw [if_pos h]
    refine ⟨true, _, rfl, ?_, ?_, ?_⟩
    · simp [h.1, h.2]
    · intro _
      exact ⟨b4, by simp, rfl, rfl, (byte_nibbles b4).1, (byte_nibbles b4).2,
        Nat.and_le_right, Nat.and_le_right, by simp⟩
    · intro c; cases c
  · rw [if_neg h]
    refine ⟨false, _, rfl, ?_, ?_, ?_⟩
    · simpa using h
    · intro c; cases c
    · intro _; rfl

/-- Witness for C14: a Long report whose byte 2 is 0xFF, taken as the reserved
feature index, and whose byte 4 is 0xA7. -/
theorem isError20_classifies_witness :
    (Report.mk ([0x11, 1, 0xFF, 3, 0xA7, 5] ++ List.replicate 17 0)).Valid ∧
    (Report.mk ([0x11, 1, 0xFF, 3, 0xA7, 5] ++ List.replicate 17 0)).isError20 0xFF
        ⟨0, 0, 0, 0⟩ = Except.ok (true, ⟨3, 0xA, 7, 5⟩) ∧
    ∃ ret out,
      (Report.mk ([0x11, 1, 0xFF, 3, 0xA7, 5] ++ List.replicate 17 0)).isError20 0xFF
          ⟨0, 0, 0, 0⟩ = Except.ok (ret, out) ∧
      (ret = true ↔
        ((Report.mk ([0x11, 1, 0xFF, 3, 0xA7, 5] ++ List.replicate 17 0))._data[0]? =
            some ReportType.Long ∧
          (Report.mk ([0x11, 1, 0xFF, 3, 0xA7, 5] ++ List.replicate 17 0))._data[2]? =
            some 0xFF)) ∧
      (ret = true →
        ∃ b4, (Report.mk ([0x11, 1, 0xFF, 3, 0xA7, 5] ++ List.replicate 17 0))._data[4]? =
            some b4 ∧
          out.function = (b4 >>> 4) &&& 0x0f ∧ out.software_id = b4 &&& 0x0f ∧
          out.function = (b4 / 16) % 16 ∧ out.software_id = b4 % 16 ∧
          out.function ≤ 15 ∧ out.software_id ≤ 15 ∧
          (Report.mk ([0x11, 1, 0xFF, 3, 0xA7, 5] ++ List.replicate 17 0))._data[5]? =
            some out.error_code) ∧
      (ret = false → out = ⟨0, 0, 0, 0⟩) :=
  ⟨by decide, rfl,
    isError20_classifies 0xFF ⟨[0x11, 1, 0xFF, 3, 0xA7, 5] ++ List.replicate 17 0⟩ ⟨0, 0, 0, 0⟩
      (by decide)⟩

/-- C15, as stated, fails: the Long report built from fields with the reserved
feature index (0xFF here), function 3 and software id 4 is classified as an error,
but the decoded function and software id are 0 and 0, the nibbles of byte 4, while
byte 3 is 0x34. -/
theorem isError20_header_counterexample :
    ∃ r out, Report.construct ReportType.Long 1 0xFF 3 4 = Except.ok r ∧
      r.isError20 0xFF ⟨0, 0, 0, 0⟩ = Except.ok (true, out) ∧
      out.function ≠ 3 ∧ out.software_id ≠ 4 ∧
      r._data[3]? = some 0x34 ∧
      r._data[3]? ≠ some ((out.function <<< 4) ||| out.software_id) :=
  ⟨⟨[0x11, 1, 0xFF, 0x34, 0, 0, 0, 0, 0, 0, 0, 0, 0, 0, 0, 0, 0, 0, 0, 0, 0, 0, 0]⟩,
    ⟨0x34, 0, 0, 0⟩, rfl, rfl, by decide, by decide, by decide, by decide⟩

/-- C15, amended: for every valid Long Report whose byte 2 is the reserved feature
index, `isError20` returns true with `feature_index` byte 3 and with `function` and
`software_id` the two nibbles of byte 4, so that byte 4 is `(function << 4) |
software_id`. In particular a Long Report built from fields with the reserved feature
index and `function`, `sw_id` in 0..15 is classified as an error whose
`feature_index` is `(function << 4) | sw_id` and whose `function`, `software_id` and
`error_code` are 0. -/
theorem isError20_decodes_byte4 (ErrorID : Nat) (r : Report) (error : hidpp20_error)
    (hv : r.Valid) (hl : r._data[0]? = some ReportType.Long)
    (hf : r._data[2]? = some ErrorID) :
    (∃ out b3 b4, r.isError20 ErrorID error = Except.ok (true, out) ∧
        r._data[3]? = some b3 ∧ r._data[4]? = some b4 ∧
        out.feature_index = b3 ∧
        out.function = (b4 >>> 4) &&& 0x0f ∧ out.software_id = b4 &&& 0x0f ∧
        (b4 < 256 → b4 = (out.function <<< 4) ||| out.software_id)) ∧
      (∀ device_index function sw_id : Nat, function ≤ 15 → sw_id ≤ 15 →
        ∃ r0, Report.construct ReportType.Long device_index ErrorID function sw_id =
            Except.ok r0 ∧
          r0.isError20 ErrorID error =
            Except.ok (true, ⟨(function <<< 4) ||| sw_id, 0, 0, 0⟩)) := by
  constructor
  · obtain ⟨b0, b1, b2, b3, b4, b5, rest, hd⟩ := valid_bytes r hv
    obtain ⟨d⟩ := r
    simp only at hd
    subst hd
    simp only [List.getElem?_cons_zero, List.getElem?_cons_succ, Option.some.injEq] at hl hf
    rw [isError20_eval, if_pos ⟨hl, hf⟩]
    exact ⟨_, b3, b4, rfl, by simp, by simp, rfl, rfl, rfl, byte_repack b4⟩
  · intro device_index function sw_id hfn hsw
    refine ⟨_, construct_long device_index ErrorID function sw_id hfn hsw, ?_⟩
    rw [isError20_eval, if_pos ⟨rfl, rfl⟩]
    rfl

/-- Witness for C15 (amended): a Long report whose byte 2 is 0xFF, taken as the
reserved feature index, with bytes 3 and 4 equal to 0x21 and 0xA7. -/
theorem isError20_decodes_byte4_witness :
    (Report.mk ([0x11, 1, 0xFF, 0x21, 0xA7, 5] ++ List.replicate 17 0)).Valid ∧
    (Report.mk ([0x11, 1, 0xFF, 0x21, 0xA7, 5] ++ List.replicate 17 0))._data[0]? =
      some ReportType.Long ∧
    (Report.mk ([0x11, 1, 0xFF, 0x21, 0xA7, 5] ++ List.replicate 17 0))._data[2]? =
      some 0xFF ∧
    (Report.mk ([0x11, 1, 0xFF, 0x21, 0xA7, 5] ++ List.replicate 17 0)).isError20 0xFF
        ⟨0, 0, 0, 0⟩ = Except.ok (true, ⟨0x21, 0xA, 7, 5⟩) ∧
    ((∃ out b3 b4,
        (Report.mk ([0x11, 1, 0xFF, 0x21, 0xA7, 5] ++ List.replicate 17 0)).isError20 0xFF
            ⟨0, 0, 0, 0⟩ = Except.ok (true, out) ∧
        (Report.mk ([0x11, 1, 0xFF, 0x21, 0xA7, 5] ++ List.replicate 17 0))._data[3]? =
          some b3 ∧
        (Report.mk ([0x11, 1, 0xFF, 0x21, 0xA7, 5] ++ List.replicate 17 0))._data[4]? =
          some b4 ∧
        out.feature_index = b3 ∧
        out.function = (b4 >>> 4) &&& 0x0f ∧ out.software_id = b4 &&& 0x0f ∧
        (b4 < 256 → b4 = (out.function <<< 4) ||| out.software_id)) ∧
      (∀ device_index function sw_id : Nat, function ≤ 15 → sw_id ≤ 15 →
        ∃ r0, Report.construct ReportType.Long device_index 0xFF function sw_id =
            Except.ok r0 ∧
          r0.isError20 0xFF ⟨0, 0, 0, 0⟩ =
            Except.ok (true, ⟨(function <<< 4) ||| sw_id, 0, 0, 0⟩))) :=
  ⟨by decide, rfl, rfl, rfl,
    isError20_decodes_byte4 0xFF ⟨[0x11, 1, 0xFF, 0x21, 0xA7, 5] ++ List.replicate 17 0⟩
      ⟨0, 0, 0, 0⟩ (by decide) rfl rfl⟩

/-- C16: on a valid Report both classifications return, and they never both return
true, whatever the two reserved values and the two output structs are: the first
needs byte 0 to be the Short code, the second needs it to be the Long code. -/
theorem isError_exclusive (ErrorID10 ErrorID20 : Nat) (r : Report) (e10 : hidpp10_error)
    (e20 : hidpp20_error) (hv : r.Valid) :
    (∃ ret out, r.isError10 ErrorID10 e10 = Except.ok (ret, out)) ∧
      (∃ ret out, r.isError20 ErrorID20 e20 = Except.ok (ret, out)) ∧
      ¬ ∃ out10 out20, r.isError10 ErrorID10 e10 = Except.ok (true, out10) ∧
          r.isError20 ErrorID20 e20 = Except.ok (true, out20) := by
  obtain ⟨b0, b1, b2, b3, b4, b5, rest, hd⟩ := valid_bytes r hv
  obtain ⟨d⟩ := r
  simp only at hd
  subst hd
  rw [isError10_eval, isError20_eval]
  refine ⟨⟨_, _, rfl⟩, ⟨_, _, rfl⟩, ?_⟩
  rintro ⟨o1, o2, h1, h2⟩
  by_cases a : b0 = ReportType.Short ∧ b2 = ErrorID10
  · have n : ¬ (b0 = ReportType.Long ∧ b2 = ErrorID20) := by
      rintro ⟨c, _⟩
      rw [a.1] at c
      exact absurd c (by decide)
    rw [if_neg n] at h2
    cases h2
  · rw [if_neg a] at h1
    cases h1

/-- Witness for C16: a Short report whose byte 2 is 0x8F. -/
theorem isError_exclusive_witness :
    (Report.mk [0x10, 1, 0x8F, 3, 4, 5, 6, 7, 8, 9]).Valid ∧
    ((∃ ret out, (Report.mk [0x10, 1, 0x8F, 3, 4, 5, 6, 7, 8, 9]).isError10 0x8F ⟨0, 0, 0⟩ =
        Except.ok (ret, out)) ∧
      (∃ ret out,
        (Report.mk [0x10, 1, 0x8F, 3, 4, 5, 6, 7, 8, 9]).isError20 0x8F ⟨0, 0, 0, 0⟩ =
          Except.ok (ret, out)) ∧
      ¬ ∃ out10 out20,
          (Report.mk [0x10, 1, 0x8F, 3, 4, 5, 6, 7, 8, 9]).isError10 0x8F ⟨0, 0, 0⟩ =
            Except.ok (true, out10) ∧
          (Report.mk [0x10, 1, 0x8F, 3, 4, 5, 6, 7, 8, 9]).isError20 0x8F ⟨0, 0, 0, 0⟩ =
            Except.ok (true, out20)) :=
  ⟨by decide,
    isError_exclusive 0x8F 0x8F ⟨[0x10, 1, 0x8F, 3, 4, 5, 6, 7, 8, 9]⟩ ⟨0, 0, 0⟩ ⟨0, 0, 0, 0⟩
      (by decide)⟩

/-! ## Every access is inside the buffer -/

theorem setType_in_bounds (r : Report) (type : Nat) :
    (r.setType type).fault ≠ some Fault.OutOfBounds := by
  by_cases hs : type = ReportType.Short
  · subst hs
    rw [setType_short]
    simp
  · by_cases hl : type = ReportType.Long
    · subst hl
      rw [setType_long]
      simp
    · rw [setType_invalid r type hs hl]
      simp

/-- C17: on every Report reached from a constructor that returned through calls of
`setType` and `setParams` that returned, no access leaves the buffer: offsets 0, 2,
3, 4 and 5 exist, so `isError10` and `isError20` return; `setType` writes offset 0 of
the resized buffer, which exists; and `setParams` with at most `buffer.length -
HeaderLength` bytes writes only offsets `4 + i` that exist, and returns. -/
theorem accesses_in_bounds (type d f fn sw : Nat) (data : List Nat) (ops : List Op)
    (r0 r : Report)
    (hc : Report.construct type d f fn sw = Except.ok r0 ∨
      Report.constructRaw data = Except.ok r0)
    (hops : runOps ops r0 = some r) :
    (Offset.ReportType < r._data.length ∧ Offset.SubID < r._data.length ∧
        Offset.Feature < r._data.length ∧ 3 < r._data.length ∧ 4 < r._data.length ∧
        5 < r._data.length) ∧
      (∀ (ErrorID : Nat) (error : hidpp10_error),
        ∃ ret out, r.isError10 ErrorID error = Except.ok (ret, out)) ∧
      (∀ (ErrorID : Nat) (error : hidpp20_error),
        ∃ ret out, r.isError20 ErrorID error = Except.ok (ret, out)) ∧
      (∀ new_type : Nat,
        (r.setType new_type).fault ≠ some Fault.OutOfBounds ∧
          Offset.ReportType < (resize r._data (HeaderLength + ShortParamLength)).length ∧
          Offset.ReportType < (resize r._data (HeaderLength + LongParamLength)).length) ∧
      (∀ params : List Nat, params.length ≤ r._data.length - HeaderLength →
        (∀ i, i < params.length → Offset.Parameters + i < r._data.length) ∧
          (r.setParams params).fault = none) := by
  have hv0 : r0.Valid := by
    rcases hc with hc | hc
    · exact construct_valid type d f fn sw r0 hc
    · exact constructRaw_valid data r0 hc
  have hv : r.Valid := runOps_valid ops r0 r hv0 hops
  have hlen : 10 ≤ r._data.length := by
    rcases (valid_iff r).1 hv with ⟨_, hl⟩ | ⟨_, hl⟩ <;> rw [hl] <;> decide
  obtain ⟨h4, hn⟩ := valid_bounds r hv
  obtain ⟨b0, b1, b2, b3, b4, b5, rest, hd⟩ := valid_bytes r hv
  refine ⟨?_, ?_, ?_, ?_, ?_⟩
  · unfold Offset.ReportType Offset.SubID Offset.Feature
    omega
  · intro ErrorID error
    obtain ⟨dd⟩ := r
    simp only at hd
    subst hd
    rw [isError10_eval]
    exact ⟨_, _, rfl⟩
  · intro ErrorID error
    obtain ⟨dd⟩ := r
    simp only at hd
    subst hd
    rw [isError20_eval]
    exact ⟨_, _, rfl⟩
  · intro new_type
    refine ⟨setType_in_bounds r new_type, ?_, ?_⟩
    · rw [resize_length]; decide
    · rw [resize_length]; decide
  · intro params hp
    refine ⟨?_, ?_⟩
    · intro i hi
      unfold Offset.Parameters HeaderLength at *
      omega
    · rw [setParams_ok r params h4 hn hp]

/-- Witness for C17: a Long report built from fields, given three parameter bytes and
turned into a Short report. -/
theorem accesses_in_bounds_witness :
    (Report.construct 0x11 1 2 3 4 =
        Except.ok ⟨[0x11, 1, 2, 0x34, 0, 0, 0, 0, 0, 0, 0, 0, 0, 0, 0, 0, 0, 0, 0, 0, 0, 0, 0]⟩ ∨
      Report.constructRaw [] =
        Except.ok ⟨[0x11, 1, 2, 0x34, 0, 0, 0, 0, 0, 0, 0, 0, 0, 0, 0, 0, 0, 0, 0, 0, 0, 0, 0]⟩) ∧
    runOps [Op.setParams [7, 8, 9], Op.setType 0x10]
        ⟨[0x11, 1, 2, 0x34, 0, 0, 0, 0, 0, 0, 0, 0, 0, 0, 0, 0, 0, 0, 0, 0, 0, 0, 0]⟩ =
      some ⟨[0x10, 1, 2, 0x34, 7, 8, 9, 0, 0, 0]⟩ ∧
    5 < (Report.mk [0x10, 1, 2, 0x34, 7, 8, 9, 0, 0, 0])._data.length ∧
    ((Report.mk [0x10, 1, 2, 0x34, 7, 8, 9, 0, 0, 0]).setParams [1, 2, 3, 4, 5, 6]).fault =
      none :=
  ⟨Or.inl rfl, by decide,
    (accesses_in_bounds 0x11 1 2 3 4 [] [Op.setParams [7, 8, 9], Op.setType 0x10]
      ⟨[0x11, 1, 2, 0x34, 0, 0, 0, 0, 0, 0, 0, 0, 0, 0, 0, 0, 0, 0, 0, 0, 0, 0, 0]⟩
      ⟨[0x10, 1, 2, 0x34, 7, 8, 9, 0, 0, 0]⟩ (Or.inl rfl) (by decide)).1.2.2.2.2.2,
    ((accesses_in_bounds 0x11 1 2 3 4 [] [Op.setParams [7, 8, 9], Op.setType 0x10]
      ⟨[0x11, 1, 2, 0x34, 0, 0, 0, 0, 0, 0, 0, 0, 0, 0, 0, 0, 0, 0, 0, 0, 0, 0, 0]⟩
      ⟨[0x10, 1, 2, 0x34, 7, 8, 9, 0, 0, 0]⟩ (Or.inl rfl) (by decide)).2.2.2.2
        [1, 2, 3, 4, 5, 6] (by decide)).2⟩

/-! ## `setType` and the parameter region -/

theorem set_zero_same (v : List Nat) (b : Nat) (h : v[0]? = some b) : v.set 0 b = v := by
  cases v with
  | nil => simp at h
  | cons a t =>
    simp only [List.getElem?_cons_zero, Option.some.injEq] at h
    subst h
    rfl

theorem setType_data (r : Report) (new_type : Nat)
    (ht : new_type = ReportType.Short ∨ new_type = ReportType.Long) :
    r.setType new_type =
      ⟨none, ⟨(resize r._data (HeaderLength + paramLength new_type)).set 0 new_type⟩⟩ := by
  rcases ht with ht | ht
  · subst ht; exact setType_short r
  · subst ht; exact setType_long r

theorem setType_fresh (d : List Nat) (n j b : Nat) (hj : 0 < j) (hjd : d.length ≤ j)
    (hjn : j < n) : ((resize d n).set 0 b)[j]? = some 0 := by
  rw [List.getElem?_set_ne (by omega), resize_getElem? _ _ _ hjn, List.getElem?_eq_none hjd]
  rfl

/-- C18: on a valid Report, `setType` with the Short or the Long code keeps every
parameter byte whose offset exists before and after the call and makes every byte
whose offset did not exist before the call zero; with the type the Report already
has it changes nothing; and on a Long Report, `setType(Short)` followed by
`setType(Long)` leaves zero at every offset from the Short length to the Long
length. -/
theorem setType_truncates_or_extends (r : Report) (new_type : Nat) (hv : r.Valid)
    (ht : new_type = ReportType.Short ∨ new_type = ReportType.Long) :
    (∀ j, Offset.Parameters ≤ j → j < r._data.length →
        j < (r.setType new_type).report._data.length →
        (r.setType new_type).report._data[j]? = r._data[j]?) ∧
      (∀ j, r._data.length ≤ j → j < (r.setType new_type).report._data.length →
        (r.setType new_type).report._data[j]? = some 0) ∧
      (r._data[0]? = some new_type → r.setType new_type = ⟨none, r⟩) ∧
      (r._data[0]? = some ReportType.Long →
        ∀ j, HeaderLength + ShortParamLength ≤ j → j < HeaderLength + LongParamLength →
          ((r.setType ReportType.Short).report.setType ReportType.Long).report._data[j]? =
            some 0) := by
  have hlen : 10 ≤ r._data.length := by
    rcases (valid_iff r).1 hv with ⟨_, hl⟩ | ⟨_, hl⟩ <;> rw [hl] <;> decide
  rw [setType_data r new_type ht]
  simp only [List.length_set, resize_length]
  refine ⟨?_, ?_, ?_, ?_⟩
  · intro j h4 hj hjn
    exact setType_header _ _ j _ (by unfold Offset.Parameters at h4; omega) hj hjn
  · intro j hj hjn
    exact setType_fresh _ _ j _ (by omega) hj hjn
  · intro h0
    have hl : r._data.length = HeaderLength + paramLength new_type := by
      rcases (valid_iff r).1 hv with ⟨h, hl⟩ | ⟨h, hl⟩
      · rw [h] at h0
        cases h0
        exact hl
      · rw [h] at h0
        cases h0
        exact hl
    rw [← hl, resize_of_length, set_zero_same _ _ h0]
  · intro _ j hj hjn
    rw [setType_short, setType_long]
    refine setType_fresh _ _ j _ ?_ ?_ hjn
    · unfold HeaderLength ShortParamLength at hj; omega
    · simp only [List.length_set, resize_length]
      exact hj

/-- Witness for C18: a Short report with six parameter bytes turned into a Long
one. -/
theorem setType_truncates_or_extends_witness :
    (Report.mk [0x10, 1, 2, 3, 4, 5, 6, 7, 8, 9]).Valid ∧
    (0x11 = ReportType.Short ∨ 0x11 = ReportType.Long) ∧
    (Report.mk [0x10, 1, 2, 3, 4, 5, 6, 7, 8, 9]).setType 0x11 =
      ⟨none, ⟨[0x11, 1, 2, 3, 4, 5, 6, 7, 8, 9, 0, 0, 0, 0, 0, 0, 0, 0, 0, 0, 0, 0, 0]⟩⟩ ∧
    (∀ j, (Report.mk [0x10, 1, 2, 3, 4, 5, 6, 7, 8, 9])._data.length ≤ j →
      j < ((Report.mk [0x10, 1, 2, 3, 4, 5, 6, 7, 8, 9]).setType 0x11).report._data.length →
      ((Report.mk [0x10, 1, 2, 3, 4, 5, 6, 7, 8, 9]).setType 0x11).report._data[j]? =
        some 0) :=
  ⟨by decide, by decide, by decide,
    (setType_truncates_or_extends ⟨[0x10, 1, 2, 3, 4, 5, 6, 7, 8, 9]⟩ 0x11 (by decide)
      (by decide)).2.1⟩

/-! ## The raw-bytes constructor and the empty input -/

/-- C20: on a non-empty byte sequence the read of offset 0 is inside the input and
the raw-bytes constructor either returns a Report or ends with InvalidReportID; it
ends with an out-of-range read exactly on the empty sequence; and it never ends with
InvalidReportLength. -/
theorem constructRaw_total (data : List Nat) :
    (data ≠ [] →
        Offset.ReportType < data.length ∧
          ((∃ r, Report.constructRaw data = Except.ok r) ∨
            Report.constructRaw data = Except.error Fault.InvalidReportID)) ∧
      (Report.constructRaw data = Except.error Fault.OutOfBounds ↔ data = []) ∧
      Report.constructRaw data ≠ Except.error Fault.InvalidReportLength ∧
      Report.constructRaw data ≠ Except.error Fault.AssertionFailed := by
  cases data with
  | nil =>
    rw [constructRaw_nil]
    refine ⟨fun c => absurd rfl c, by simp, ?_, ?_⟩ <;> intro c <;> cases c
  | cons t rest =>
    rw [constructRaw_cons]
    by_cases hs : t = ReportType.Short
    · rw [if_pos hs]
      refine ⟨fun _ => ⟨by simp [Offset.ReportType], Or.inl ⟨_, rfl⟩⟩, ?_, ?_, ?_⟩
      · constructor <;> intro c <;> cases c
      · intro c; cases c
      · intro c; cases c
    · by_cases hl : t = ReportType.Long
      · rw [if_neg hs, if_pos hl]
        refine ⟨fun _ => ⟨by simp [Offset.ReportType], Or.inl ⟨_, rfl⟩⟩, ?_, ?_, ?_⟩
        · constructor <;> intro c <;> cases c
        · intro c; cases c
        · intro c; cases c
      · rw [if_neg hs, if_neg hl]
        refine ⟨fun _ => ⟨by simp [Offset.ReportType], Or.inr rfl⟩, ?_, ?_, ?_⟩
        · constructor <;> intro c <;> cases c
        · intro c; cases c
        · intro c; cases c

end hidpp
